import Mathlib

/-!
Formal model of the synthetic e-commerce data-generation pipeline
(`src/data_generation/customer_generation.py`, `product_generator.py`,
`transaction_generator.py`).

Modelling conventions:
* Python floats carrying money are modelled as exact rationals (`ℚ`);
  `round(x, 2)` becomes `round2`, rounding to the nearest multiple of
  `1/100` (ties round half-up here; none of the verified properties
  depends on the tie direction).
* The seeded pseudo-random generator (`random.seed(42)`) is abstracted as
  a deterministic stream of rationals (`Entropy`): each primitive of the
  `random` module consumes the head of the stream and maps it
  deterministically into the range the Python primitive guarantees.
  Likewise the seeded `faker` generator becomes a deterministic stream of
  strings plus a stream of fractions (`FakerState`).  The `uuid.uuid4`
  calls are NOT seeded in the source, so they are a separate stream of
  uuid strings (`Uuids`) supplied by the operating system; and
  `DataFrame.sample` is called without `random_state`, so it draws from
  numpy's global RNG — also unseeded by `random.seed(42)` — modelled as a
  third independent stream (`NumpyEntropy`).
* `datetime` values are epoch seconds (`ℤ`); `datetime.now()` is an
  explicit input `now`; `timedelta(days = d)` is `d * 86400`.
* `pandas.DataFrame`s are lists of records; `DataFrame.sample` raises
  `ValueError` when asked for more rows than the frame holds, modelled
  with `Except`.
-/

namespace ECom

/-- Stream of abstract PRNG draws (the seeded `random` module state). -/
abbrev Entropy := List ℚ

/-- Stream of uuid strings produced by `uuid.uuid4` (OS entropy, not seeded). -/
abbrev Uuids := List String

/-- Stream of draws of numpy's GLOBAL random generator.  The source calls
`DataFrame.sample` without a `random_state`, so pandas draws from numpy's
global RNG, which `random.seed(42)` / `Faker.seed(42)` do NOT seed: like
the uuid stream, this is an independent input that varies between runs. -/
abbrev NumpyEntropy := List ℚ

/-- Pull the next raw draw off the PRNG stream. -/
def next (e : Entropy) : ℚ × Entropy := (e.headD 0, e.tail)

/-- Clamp a raw draw into the unit interval. -/
def clampUnit (q : ℚ) : ℚ := max 0 (min 1 q)

/-- Natural-number view of a raw draw, used for index selection. -/
def natOf (q : ℚ) : ℕ := q.floor.toNat

/-- `round(x, 2)`: round to the nearest multiple of `1/100`. -/
def round2 (q : ℚ) : ℚ := ((round (q * 100) : ℤ) : ℚ) / 100

/-- `random.randint(a, b)`: inclusive uniform integer in `[a, b]`. -/
def pyRandint (a b : ℤ) (e : Entropy) : ℤ × Entropy :=
  let (q, e1) := next e
  (a + ⌊q⌋ % (b - a + 1), e1)

/-- `random.uniform(a, b)`: uniform rational in `[a, b]`. -/
def pyUniform (a b : ℚ) (e : Entropy) : ℚ × Entropy :=
  let (q, e1) := next e
  (a + (b - a) * clampUnit q, e1)

/-- `random.choice(xs)`: uniform element of the non-empty list `xs`. -/
def pyChoice [Inhabited α] (xs : List α) (e : Entropy) : α × Entropy :=
  let (q, e1) := next e
  (xs.getD (natOf q % xs.length) default, e1)

/-- `random.choices(xs, weights)` (default `k = 1`): a ONE-ELEMENT LIST
holding one draw from `xs`.  Weights (all positive in the source) bias the
distribution but do not change its support, so the abstraction ignores
them. -/
def pyChoicesW [Inhabited α] (xs : List α) (ws : List ℚ) (e : Entropy) :
    List α × Entropy :=
  let (x, e1) := pyChoice xs e
  ([x], e1)

/-- `random.choices(xs)` with no weights argument. -/
def pyChoices [Inhabited α] (xs : List α) (e : Entropy) : List α × Entropy :=
  pyChoicesW xs [] e

/-- Errors surfaced by the generation code.  `valueError` is the pandas
`ValueError` raised by `DataFrame.sample` when the requested sample exceeds
the population; `configurationError` is the error class the specification
asks for, which the code never raises. -/
inductive PyError where
  | valueError (msg : String)
  | configurationError (msg : String)
deriving DecidableEq, Inhabited

/-- Without-replacement selection of `n` rows: repeatedly pick an index
into the remaining rows and remove it, driven by numpy's global RNG. -/
def sampleAux [Inhabited α] : ℕ → List α → NumpyEntropy → List α × NumpyEntropy
  | 0, _, e => ([], e)
  | n + 1, xs, e =>
      let (q, e1) := next e
      let i := natOf q % xs.length
      let (ys, e2) := sampleAux n (xs.eraseIdx i) e1
      (xs.getD i default :: ys, e2)

/-- `DataFrame.sample(n)` (no `random_state` in the source, hence numpy's
unseeded global RNG): `n` distinct rows, or the pandas `ValueError` when
`n` exceeds the population. -/
def pdSample [Inhabited α] (xs : List α) (n : ℕ) (np : NumpyEntropy) :
    Except PyError (List α × NumpyEntropy) :=
  if xs.length < n then
    .error (.valueError "Cannot take a larger sample than population when replace=False")
  else
    .ok (sampleAux n xs np)

/-- Fragment of the Python value universe needed for the `==` comparison in
`generate_inventory_for_product`, where a `list` of strings is compared
against a `str`. -/
inductive PyVal where
  | str (s : String)
  | strList (xs : List String)
deriving DecidableEq, Inhabited

/-- Python `==` on these values: structural, and `list == str` is `False`. -/
def pyEq (a b : PyVal) : Bool := decide (a = b)

/-- Deterministic state of the seeded `faker` generator: a stream of
strings for the textual factories and a stream of fractions for date
selection. -/
structure FakerState where
  strs : List String
  fracs : List ℚ
deriving DecidableEq, Inhabited

/-- One textual faker draw (`fake.company()`, `fake.email()`, ...). -/
def fakeStr (f : FakerState) : String × FakerState :=
  (f.strs.headD "", { strs := f.strs.tail, fracs := f.fracs })

/-- `fake.date_time_between(start_date, 'now')`: a time between
`now + startOffset` and `now` (offsets in seconds, `startOffset ≤ 0`).  It
depends on the wall clock as well as on the seeded faker state. -/
def fakeDateTimeBetween (startOffset : ℤ) (now : ℤ) (f : FakerState) :
    ℤ × FakerState :=
  let q := f.fracs.headD 0
  (now + ⌊(startOffset : ℚ) * clampUnit q⌋, { strs := f.strs, fracs := f.fracs.tail })

/-- Python `str.title()` restricted to the single words it is applied to. -/
def pyTitle (s : String) : String := s.capitalize

/-! ### Arithmetic facts about `round2` -/

/-- A rational is an exact amount of cents (a multiple of `1/100`). -/
def Cents (q : ℚ) : Prop := ∃ n : ℤ, q = (n : ℚ) / 100

theorem cents_round2 (q : ℚ) : Cents (round2 q) := ⟨round (q * 100), rfl⟩

theorem round2_of_cents {q : ℚ} (h : Cents q) : round2 q = q := by
  obtain ⟨n, rfl⟩ := h
  unfold round2
  rw [div_mul_cancel₀ (n : ℚ) (by norm_num : (100 : ℚ) ≠ 0), round_intCast]

theorem cents_add {a b : ℚ} (ha : Cents a) (hb : Cents b) : Cents (a + b) := by
  obtain ⟨m, rfl⟩ := ha
  obtain ⟨n, rfl⟩ := hb
  exact ⟨m + n, by push_cast; ring⟩

theorem cents_sum {l : List ℚ} (h : ∀ x ∈ l, Cents x) : Cents l.sum := by
  induction l with
  | nil => exact ⟨0, by norm_num⟩
  | cons x xs ih =>
      rw [List.sum_cons]
      exact cents_add (h x (List.mem_cons_self x xs))
        (ih fun y hy => h y (List.mem_cons_of_mem x hy))

theorem cents_intCast (n : ℤ) : Cents (n : ℚ) := ⟨100 * n, by push_cast; ring⟩

theorem cents_mul_int {q : ℚ} (h : Cents q) (k : ℤ) : Cents (q * k) := by
  obtain ⟨n, rfl⟩ := h
  exact ⟨n * k, by push_cast; ring⟩

theorem round2_bounds (q : ℚ) : q - 1 / 200 ≤ round2 q ∧ round2 q ≤ q + 1 / 200 := by
  have h := abs_sub_round (q * 100)
  rw [abs_le] at h
  unfold round2
  constructor <;> [linarith [h.1]; linarith [h.2]]

theorem round2_mono {a b : ℚ} (hab : a ≤ b) : round2 a ≤ round2 b := by
  unfold round2
  have : round (a * 100) ≤ round (b * 100) := by
    rw [round_eq, round_eq]
    exact Int.floor_mono (by linarith)
  have hc : ((round (a * 100) : ℤ) : ℚ) ≤ ((round (b * 100) : ℤ) : ℚ) := by
    exact_mod_cast this
  linarith

theorem round2_zero : round2 0 = 0 := by
  unfold round2
  norm_num

theorem round2_nonneg {q : ℚ} (h : 0 ≤ q) : 0 ≤ round2 q := by
  have := round2_mono h
  rwa [round2_zero] at this

/-! ### Customer generation (`customer_generation.py`) -/

/-- One row of the customers table. -/
structure Customer where
  customer_id : ℤ
  email : String
  first_name : String
  last_name : String
  phone : String
  address : String
  city : String
  state : String
  zip_code : String
  country : String
  registration_date : ℤ
  customer_segement : String
  lifetime_value : ℚ
deriving DecidableEq, Inhabited

/-- `generate_single_customer`: the dict literal evaluates its faker and
`random` calls top to bottom; `'-2y'` is `-63072000` seconds. -/
def generate_single_customer (customer_id : ℤ) (now : ℤ) (f : FakerState)
    (e : Entropy) : Customer × FakerState × Entropy :=
  let (email, f1) := fakeStr f
  let (first_name, f2) := fakeStr f1
  let (last_name, f3) := fakeStr f2
  let (phone, f4) := fakeStr f3
  let (address, f5) := fakeStr f4
  let (city, f6) := fakeStr f5
  let (state, f7) := fakeStr f6
  let (zip_code, f8) := fakeStr f7
  let (registration_date, f9) := fakeDateTimeBetween (-63072000) now f8
  let (customer_segement, e1) := pyChoice ["VIP", "Regular", "New"] e
  let (lv, e2) := pyUniform 100 10000 e1
  ({ customer_id := customer_id, email := email, first_name := first_name,
     last_name := last_name, phone := phone, address := address, city := city,
     state := state, zip_code := zip_code, country := "USA",
     registration_date := registration_date,
     customer_segement := customer_segement,
     lifetime_value := round2 lv }, f9, e2)

/-- The generation loop of `generate_customers` over the id list `1..n`. -/
def generate_customers_loop (now : ℤ) :
    List ℤ → FakerState → Entropy → List Customer × FakerState × Entropy
  | [], f, e => ([], f, e)
  | cid :: rest, f, e =>
      let (c, f1, e1) := generate_single_customer cid now f e
      let (cs, f2, e2) := generate_customers_loop now rest f1 e1
      (c :: cs, f2, e2)

/-- `generate_customers`: customers with ids `1..num_customers` in order. -/
def generate_customers (num_customers : ℕ) (now : ℤ) (f : FakerState)
    (e : Entropy) : List Customer × FakerState × Entropy :=
  generate_customers_loop now
    ((List.range num_customers).map fun i => Int.ofNat i + 1) f e

/-! ### Product and inventory generation (`product_generator.py`) -/

/-- The fixed category taxonomy (including the source's spelling of
`Accessrories`). -/
def categories : List (String × List String) :=
  [("Electronics", ["Smartphones", "Laptops", "Tablets", "Accessories", "Cameras"]),
   ("Clothing", ["Men", "Women", "Kids", "Accessrories", "Shoes"]),
   ("Home & Garden", ["Furniture", "Decor", "Kitchen", "Outdoor", "Lighting"]),
   ("Sports", ["Fitness", "Outdoor", "Team Sports", "Equipment", "Apparel"]),
   ("Books", ["Fiction", "Non-Fiction", "Educational", "Children", "Comics"]),
   ("Beauty", ["Skincare", "Makeup", "Haircare", "Fragrances", "Tools"]),
   ("Food & Beverage", ["Snacks", "Beverages", "Organic", "Gourmet", "Pantry"])]

/-- `list(categories.keys())`. -/
def categoryKeys : List String := categories.map (·.1)

/-- `categories[category]`. -/
def subcategoriesOf (c : String) : List String :=
  ((categories.find? (fun p => p.1 == c)).map (·.2)).getD []

/-- One row of the products table. -/
structure Product where
  product_id : ℤ
  product_name : String
  category : String
  subcategory : String
  brand : String
  price : ℚ
  cost : ℚ
  profit_margin : ℚ
  description : String
  image_url : String
  weight_kg : ℚ
  created_at : ℤ
deriving DecidableEq, Inhabited

/-- `generate_product_name`: the `name_patterns` dict literal evaluates
every pattern (consuming faker and `random` draws) before the category's
list is selected; an unknown category falls back to `"{subcategory} Item"`. -/
def generate_product_name (category subcategory : String) (f : FakerState)
    (e : Entropy) : String × FakerState × Entropy :=
  let (elecCompany, f1) := fakeStr f
  let (elecSuffix, e1) := pyChoice ["X", "Plus", "Max", "Ultra"] e
  let electronics := [elecCompany ++ " " ++ subcategory,
                      "Premium " ++ subcategory ++ " Pro",
                      subcategory ++ " " ++ elecSuffix]
  let (clothColor, f2) := fakeStr f1
  let (clothKind, e2) := pyChoice ["Shirt", "Pants", "Jacket", "Dress"] e1
  let (clothLine, e3) := pyChoice ["Collection", "Style", "Line"] e2
  let clothing := [clothColor ++ " " ++ subcategory ++ " " ++ clothKind,
                   "Designer " ++ subcategory ++ " " ++ clothLine]
  let (homeKind, e4) := pyChoice ["Set", "Collection", "Piece"] e3
  let (homeColor, f3) := fakeStr f2
  let home := ["Modern " ++ subcategory ++ " " ++ homeKind,
               homeColor ++ " " ++ subcategory]
  let (sportsKind, e5) := pyChoice ["Gear", "Equipment", "Kit"] e4
  let sports := ["Pro " ++ subcategory ++ " " ++ sportsKind,
                 subcategory ++ " Champion"]
  let (phrase, f4) := fakeStr f3
  let (word1, f5) := fakeStr f4
  let (word2, f6) := fakeStr f5
  let books := [phrase, "The " ++ pyTitle word1 ++ " " ++ pyTitle word2]
  let (beautyCompany, f7) := fakeStr f6
  let (beautyKind, e6) := pyChoice ["Essentials", "Collection", "Kit"] e5
  let beauty := [beautyCompany ++ " " ++ subcategory ++ " " ++ beautyKind,
                 "Luxury " ++ subcategory]
  let (foodCompany, f8) := fakeStr f7
  let food := ["Organic " ++ subcategory,
               foodCompany ++ " " ++ subcategory ++ " Mix"]
  let name_patterns := [("Electronics", electronics), ("Clothing", clothing),
    ("Home & Garden", home), ("Sports", sports), ("Books", books),
    ("Beauty", beauty), ("Food & Beverage", food)]
  let pattern :=
    ((name_patterns.find? (fun p => p.1 == category)).map (·.2)).getD
      [subcategory ++ " Item"]
  let (name, e7) := pyChoice pattern e6
  (name, f8, e7)

/-- The category-specific price ranges. -/
def price_ranges : List (String × (ℚ × ℚ)) :=
  [("Electronics", (50, 2000)), ("Clothing", (15, 300)),
   ("Home & Garden", (20, 1500)), ("Sports", (10, 500)), ("Books", (5, 50)),
   ("Beauty", (10, 200)), ("Food & Beverage", (3, 100))]

/-- `price_ranges.get(category, (10, 100))`. -/
def priceRangeOf (c : String) : ℚ × ℚ :=
  ((price_ranges.find? (fun p => p.1 == c)).map (·.2)).getD (10, 100)

/-- `generate_single_product`: `'-1y'` is `-31536000` seconds, `0.4`/`0.8`
are `2/5`/`4/5`, `.1` is `1/10`. -/
def generate_single_product (product_id : ℤ) (now : ℤ) (f : FakerState)
    (e : Entropy) : Product × FakerState × Entropy :=
  let (category, e1) := pyChoice categoryKeys e
  let (subcategory, e2) := pyChoice (subcategoriesOf category) e1
  let mm := priceRangeOf category
  let (u, e3) := pyUniform mm.1 mm.2 e2
  let price := round2 u
  let (cost_percentage, e4) := pyUniform (2 / 5) (4 / 5) e3
  let cost := round2 (price * cost_percentage)
  let (product_name, f1, e5) := generate_product_name category subcategory f e4
  let (brand, f2) := fakeStr f1
  let (description, f3) := fakeStr f2
  let (image_url, f4) := fakeStr f3
  let (w, e6) := pyUniform (1 / 10) 20 e5
  let (created_at, f5) := fakeDateTimeBetween (-31536000) now f4
  ({ product_id := product_id, product_name := product_name,
     category := category, subcategory := subcategory, brand := brand,
     price := price, cost := cost,
     profit_margin := round2 ((price - cost) / price * 100),
     description := description, image_url := image_url,
     weight_kg := round2 w, created_at := created_at }, f5, e6)

/-- The generation loop of `generate_products` over the id list `1..n`. -/
def generate_products_loop (now : ℤ) :
    List ℤ → FakerState → Entropy → List Product × FakerState × Entropy
  | [], f, e => ([], f, e)
  | pid :: rest, f, e =>
      let (p, f1, e1) := generate_single_product pid now f e
      let (ps, f2, e2) := generate_products_loop now rest f1 e1
      (p :: ps, f2, e2)

/-- `generate_products`: products with ids `1..num_products` in order. -/
def generate_products (num_products : ℕ) (now : ℤ) (f : FakerState)
    (e : Entropy) : List Product × FakerState × Entropy :=
  generate_products_loop now
    ((List.range num_products).map fun i => Int.ofNat i + 1) f e

/-- One row of the inventory table (the source dict stores no
`reorder_level` field, only the derived `needs_reorder` flag). -/
structure InventoryRecord where
  product_id : ℤ
  warehouse_id : ℤ
  warehouse_name : String
  quantity : ℤ
  last_updated : ℤ
  needs_reorder : Bool
deriving DecidableEq, Inhabited

/-- The per-warehouse loop of `generate_inventory_for_product`.  Note
`popularity` is the LIST returned by `random.choices`, so the Python `==`
against the strings `'high'` / `'medium'` (here `pyEq`) is always false
and the low branch always runs. -/
def inventoryLoop (product_id : ℤ) (now : ℤ) :
    List ℤ → Entropy → List InventoryRecord × Entropy
  | [], e => ([], e)
  | warehouse_id :: rest, e =>
      let (popularity, e1) := pyChoices ["high", "medium", "low"] e
      let pop := PyVal.strList popularity
      let (qr, e2) :=
        if pyEq pop (.str "high") then
          let (q, ea) := pyRandint 100 500 e1
          let (r, eb) := pyRandint 50 100 ea
          ((q, r), eb)
        else if pyEq pop (.str "medium") then
          let (q, ea) := pyRandint 20 100 e1
          let (r, eb) := pyRandint 20 50 ea
          ((q, r), eb)
        else
          let (q, ea) := pyRandint 0 20 e1
          let (r, eb) := pyRandint 10 20 ea
          ((q, r), eb)
      let inv : InventoryRecord := {
        product_id := product_id,
        warehouse_id := warehouse_id,
        warehouse_name := "Warehouse " ++ toString warehouse_id,
        quantity := qr.1,
        last_updated := now,
        needs_reorder := decide (qr.2 > qr.1) }
      let (restRecs, e3) := inventoryLoop product_id now rest e2
      (inv :: restRecs, e3)

/-- `generate_inventory_for_product`: one record per warehouse `1..n`. -/
def generate_inventory_for_product (product_id : ℤ) (now : ℤ)
    (num_warehouses : ℕ) (e : Entropy) : List InventoryRecord × Entropy :=
  inventoryLoop product_id now
    ((List.range' 1 num_warehouses).map fun w => Int.ofNat w) e

/-- `generate_inventory`: iterates `products_df['product_id']` in order. -/
def generate_inventory :
    List Product → ℤ → ℕ → Entropy → List InventoryRecord × Entropy
  | [], _, _, e => ([], e)
  | p :: rest, now, nw, e =>
      let (recs, e1) := generate_inventory_for_product p.product_id now nw e
      let (more, e2) := generate_inventory rest now nw e1
      (recs ++ more, e2)

/-! ### Transaction generation (`transaction_generator.py`) -/

/-- `generate_transaction_id`: `f"TXN-{str(uuid.uuid4())[:8]}"`, consuming
one uuid from the (unseeded) uuid stream. -/
def generate_transaction_id (us : Uuids) : String × Uuids :=
  ("TXN-" ++ (us.headD "").take 8, us.tail)

/-- `select_random_customer`: the `customer_segment_weights` branch of the
source contains only a TODO comment and `pass`, so the parameter is dead;
the selection is `customers_df.sample(n=1).iloc[0]`, drawing from numpy's
global RNG. -/
def select_random_customer (customers : List Customer)
    (customer_segment_weights : Option (List (String × ℚ)))
    (np : NumpyEntropy) : Except PyError (Customer × NumpyEntropy) :=
  match pdSample customers 1 np with
  | .error err => .error err
  | .ok (xs, np1) => .ok (xs.headD default, np1)

/-- `select_shopping_cart`: `num_items = randint(min_items, max_items)`
(the seeded `random` module) then `products_df.sample(n=num_items)`
(numpy's global RNG). -/
def select_shopping_cart (products : List Product) (min_items max_items : ℤ)
    (e : Entropy) (np : NumpyEntropy) :
    Except PyError (List Product × Entropy × NumpyEntropy) :=
  let (num_items, e1) := pyRandint min_items max_items e
  match pdSample products num_items.toNat np with
  | .error err => .error err
  | .ok (cart, np1) => .ok (cart, e1, np1)

/-- One row of the transaction-items table. -/
structure TransactionItem where
  transaction_id : String
  product_id : ℤ
  product_name : String
  category : String
  quantity : ℤ
  unit_price : ℚ
  discount_amount : ℚ
  subtotal : ℚ
deriving DecidableEq, Inhabited

/-- `generate_transaction_items`: one line item per cart product. -/
def generate_transaction_items (transaction_id : String) :
    List Product → Entropy → List TransactionItem × Entropy
  | [], e => ([], e)
  | product :: rest, e =>
      let (quantity, e1) := pyRandint 1 5 e
      let unit_price := product.price
      let (discount_percentage, e2) :=
        pyChoice [(0 : ℚ), 0, 0, 5, 10, 15, 20] e1
      let discount_amount :=
        round2 (unit_price * (quantity : ℚ) * (discount_percentage / 100))
      let subtotal :=
        round2 (unit_price * (quantity : ℚ) - discount_amount)
      let item : TransactionItem := {
        transaction_id := transaction_id,
        product_id := product.product_id,
        product_name := product.product_name,
        category := product.category,
        quantity := quantity,
        unit_price := unit_price,
        discount_amount := discount_amount,
        subtotal := subtotal }
      let (more, e3) := generate_transaction_items transaction_id rest e2
      (item :: more, e3)

/-- The totals record returned by `calculate_transaction_totals`. -/
structure TransactionTotals where
  subtotal : ℚ
  tax_amount : ℚ
  total_amount : ℚ
  total_discount : ℚ
  total_items : ℕ
deriving DecidableEq, Inhabited

/-- `calculate_transaction_totals`: note the transaction `subtotal` is the
plain (un-rounded) sum of the item subtotals. -/
def calculate_transaction_totals (items : List TransactionItem) :
    TransactionTotals :=
  let subtotal := (items.map (·.subtotal)).sum
  let tax_rate : ℚ := 8 / 100
  let tax_amount := round2 (subtotal * tax_rate)
  let total_amount := round2 (subtotal + tax_amount)
  let total_discount := (items.map (·.discount_amount)).sum
  { subtotal := subtotal, tax_amount := tax_amount,
    total_amount := total_amount, total_discount := total_discount,
    total_items := items.length }

/-- One row of the transactions table. -/
structure Transaction where
  transaction_id : String
  customer_id : ℤ
  customer_email : String
  transaction_date : ℤ
  total_amount : ℚ
  subtotal : ℚ
  tax_amount : ℚ
  total_discount : ℚ
  payment_method : String
  status : String
  num_items : ℕ
  shipping_address : String
  created_at : ℤ
deriving DecidableEq, Inhabited

/-- `generate_single_transaction`: a sampling `ValueError` (empty customer
table, or cart size above the catalog size) propagates as the thrown
exception does in Python.  The seeded entropy `e`, the numpy stream `np`
and the uuid stream `us` are threaded separately, as in the source. -/
def generate_single_transaction (customers : List Customer)
    (products : List Product) (now : ℤ) (transaction_date : Option ℤ)
    (e : Entropy) (np : NumpyEntropy) (us : Uuids) :
    Except PyError ((Transaction × List TransactionItem) ×
      Entropy × NumpyEntropy × Uuids) :=
  let (transaction_id, us1) := generate_transaction_id us
  match select_random_customer customers none np with
  | .error err => .error err
  | .ok (customer, np1) =>
    match select_shopping_cart products 1 10 e np1 with
    | .error err => .error err
    | .ok (cart, e2, np2) =>
      let (items, e3) := generate_transaction_items transaction_id cart e2
      let totals := calculate_transaction_totals items
      let (txn_date, e4) :=
        match transaction_date with
        | none =>
            let (days_ago, e4) := pyRandint 0 90 e3
            (now - days_ago * 86400, e4)
        | some d => (d, e3)
      let (pm, e5) := pyChoicesW
        ["credit_card", "debit_card", "paypal", "apple_pay", "google_pay"]
        [2 / 5, 3 / 10, 3 / 20, 1 / 20, 1 / 20] e4
      let payment_method := pm.headD ""
      let (st, e6) := pyChoicesW ["completed", "pending", "failed"]
        [23 / 25, 1 / 20, 3 / 100] e5
      let status := st.headD ""
      let transaction : Transaction := {
        transaction_id := transaction_id,
        customer_id := customer.customer_id,
        customer_email := customer.email,
        transaction_date := txn_date,
        total_amount := totals.total_amount,
        subtotal := totals.subtotal,
        tax_amount := totals.tax_amount,
        total_discount := totals.total_discount,
        payment_method := payment_method,
        status := status,
        num_items := totals.total_items,
        shipping_address := customer.address ++ ", " ++ customer.city ++ ", "
          ++ customer.state ++ " " ++ customer.zip_code,
        created_at := now }
      .ok ((transaction, items), e6, np2, us1)

/-- The loop of `generate_transactions`. -/
def generate_transactions_loop (customers : List Customer)
    (products : List Product) (now : ℤ) :
    ℕ → Entropy → NumpyEntropy → Uuids →
    Except PyError ((List Transaction × List TransactionItem) ×
      Entropy × NumpyEntropy × Uuids)
  | 0, e, np, us => .ok (([], []), e, np, us)
  | Nat.succ n, e, np, us =>
      match generate_single_transaction customers products now none e np us with
      | .error err => .error err
      | .ok ((t, items), e1, np1, us1) =>
          match generate_transactions_loop customers products now n e1 np1 us1 with
          | .error err => .error err
          | .ok ((ts, its), rest) => .ok ((t :: ts, items ++ its), rest)

/-- `generate_transactions`: concatenated transactions and line items, in
generation order. -/
def generate_transactions (customers : List Customer)
    (products : List Product) (num_transactions : ℕ) (now : ℤ) (e : Entropy)
    (np : NumpyEntropy) (us : Uuids) :
    Except PyError ((List Transaction × List TransactionItem) ×
      Entropy × NumpyEntropy × Uuids) :=
  generate_transactions_loop customers products now num_transactions e np us

/-- The full generation pipeline of the four generators, threading the
seeded faker and PRNG states through the modules in run order and handing
the two unseeded streams (numpy global RNG, uuid4) to the transaction
generator. -/
def run_pipeline (nCust nProd nWh nTxn : ℕ) (now : ℤ) (f : FakerState)
    (e : Entropy) (np : NumpyEntropy) (us : Uuids) :
    Except PyError (List Customer × List Product × List InventoryRecord ×
      List Transaction × List TransactionItem) :=
  let (customers, f1, e1) := generate_customers nCust now f e
  let (products, _, e2) := generate_products nProd now f1 e1
  let (inventory, e3) := generate_inventory products now nWh e2
  match generate_transactions customers products nTxn now e3 np us with
  | .error err => .error err
  | .ok ((ts, its), _) => .ok (customers, products, inventory, ts, its)

/-! ### Basic facts about the sampling primitives -/

theorem getD_mem {α : Type _} :
    ∀ (xs : List α) (i : ℕ) (d : α), i < xs.length → xs.getD i d ∈ xs := by
  intro xs
  induction xs with
  | nil => intro i d h; simp at h
  | cons x xs ih =>
      intro i d h
      cases i with
      | zero => simp [List.getD]
      | succ n =>
          rw [List.getD_cons_succ]
          exact List.mem_cons_of_mem _ (ih n d (by simpa using h))

theorem pyRandint_eq (a b : ℤ) (e : Entropy) :
    pyRandint a b e = (a + ⌊e.headD 0⌋ % (b - a + 1), e.tail) := rfl

theorem pyRandint_mem {a b : ℤ} (h : a ≤ b) (e : Entropy) :
    a ≤ (pyRandint a b e).1 ∧ (pyRandint a b e).1 ≤ b := by
  rw [pyRandint_eq]
  have hpos : (0 : ℤ) < b - a + 1 := by omega
  have h1 : 0 ≤ ⌊e.headD 0⌋ % (b - a + 1) := Int.emod_nonneg _ (by omega)
  have h2 : ⌊e.headD 0⌋ % (b - a + 1) < b - a + 1 := Int.emod_lt_of_pos _ hpos
  constructor
  · show a ≤ a + ⌊e.headD 0⌋ % (b - a + 1)
    omega
  · show a + ⌊e.headD 0⌋ % (b - a + 1) ≤ b
    omega

theorem clampUnit_mem (q : ℚ) : 0 ≤ clampUnit q ∧ clampUnit q ≤ 1 := by
  unfold clampUnit
  constructor
  · exact le_max_left 0 _
  · exact max_le (by norm_num) (min_le_left 1 q)

theorem pyUniform_eq (a b : ℚ) (e : Entropy) :
    pyUniform a b e = (a + (b - a) * clampUnit (e.headD 0), e.tail) := rfl

theorem pyUniform_mem (a b : ℚ) (h : a ≤ b) (e : Entropy) :
    a ≤ (pyUniform a b e).1 ∧ (pyUniform a b e).1 ≤ b := by
  rw [pyUniform_eq]
  obtain ⟨h0, h1⟩ := clampUnit_mem (e.headD 0)
  constructor
  · simp only
    nlinarith
  · simp only
    nlinarith

theorem pyChoice_eq {α : Type _} [Inhabited α] (xs : List α) (e : Entropy) :
    pyChoice xs e = (xs.getD (natOf (e.headD 0) % xs.length) default, e.tail) := rfl

theorem pyChoice_mem {α : Type _} [Inhabited α] {xs : List α} (h : xs ≠ [])
    (e : Entropy) : (pyChoice xs e).1 ∈ xs := by
  rw [pyChoice_eq]
  have hlen : 0 < xs.length := List.length_pos.mpr h
  exact getD_mem xs _ default (Nat.mod_lt _ hlen)

theorem pyChoicesW_eq {α : Type _} [Inhabited α] (xs : List α) (ws : List ℚ)
    (e : Entropy) : pyChoicesW xs ws e = ([(pyChoice xs e).1], (pyChoice xs e).2) := rfl

theorem pyEq_strList_str (xs : List String) (s : String) :
    pyEq (PyVal.strList xs) (PyVal.str s) = false := by
  apply decide_eq_false
  intro h
  cases h

theorem sampleAux_succ {α : Type _} [Inhabited α] (n : ℕ) (xs : List α)
    (e : Entropy) :
    sampleAux (n + 1) xs e =
      (xs.getD (natOf (e.headD 0) % xs.length) default ::
         (sampleAux n (xs.eraseIdx (natOf (e.headD 0) % xs.length)) e.tail).1,
       (sampleAux n (xs.eraseIdx (natOf (e.headD 0) % xs.length)) e.tail).2) := rfl

theorem sampleAux_subset {α : Type _} [Inhabited α] :
    ∀ (n : ℕ) (xs : List α) (e : Entropy), n ≤ xs.length →
      ∀ y ∈ (sampleAux n xs e).1, y ∈ xs := by
  intro n
  induction n with
  | zero => intro xs e _ y hy; simp [sampleAux] at hy
  | succ m ih =>
      intro xs e hn y hy
      rw [sampleAux_succ] at hy
      have hlen : 0 < xs.length := by omega
      have hi : natOf (e.headD 0) % xs.length < xs.length := Nat.mod_lt _ hlen
      rcases List.mem_cons.mp hy with h | h
      · exact h ▸ getD_mem xs _ default hi
      · have herase : m ≤ (xs.eraseIdx (natOf (e.headD 0) % xs.length)).length := by
          rw [List.length_eraseIdx_of_lt hi]
          omega
        exact List.eraseIdx_subset _ _ (ih _ e.tail herase y h)

/-! ### Inventory generation: tier fall-through, ranges, reorder flag -/

theorem inventoryLoop_cons (pid now wid : ℤ) (rest : List ℤ) (e : Entropy) :
    inventoryLoop pid now (wid :: rest) e =
      (({ product_id := pid, warehouse_id := wid,
          warehouse_name := "Warehouse " ++ toString wid,
          quantity := (pyRandint 0 20 (pyChoicesW ["high", "medium", "low"] [] e).2).1,
          last_updated := now,
          needs_reorder := decide
            ((pyRandint 10 20 (pyRandint 0 20 (pyChoicesW ["high", "medium", "low"] [] e).2).2).1 >
             (pyRandint 0 20 (pyChoicesW ["high", "medium", "low"] [] e).2).1) } :
          InventoryRecord) ::
        (inventoryLoop pid now rest
          (pyRandint 10 20 (pyRandint 0 20 (pyChoicesW ["high", "medium", "low"] [] e).2).2).2).1,
       (inventoryLoop pid now rest
          (pyRandint 10 20 (pyRandint 0 20 (pyChoicesW ["high", "medium", "low"] [] e).2).2).2).2) := by
  rw [inventoryLoop]
  rw [show pyChoices ["high", "medium", "low"] e = pyChoicesW ["high", "medium", "low"] [] e from rfl]
  rw [pyChoicesW_eq]
  simp only [pyEq_strList_str, Bool.false_eq_true, if_false]

/-- Every record produced by the per-warehouse loop: the low branch always
runs, so quantity is drawn from `[0, 20]` and the reorder threshold from
`[10, 20]`, and `needs_reorder` is the comparison of those two draws. -/
theorem inventoryLoop_spec (pid now : ℤ) :
    ∀ (wids : List ℤ) (e : Entropy) (r : InventoryRecord),
      r ∈ (inventoryLoop pid now wids e).1 →
      r.product_id = pid ∧ r.last_updated = now ∧
      0 ≤ r.quantity ∧ r.quantity ≤ 20 ∧
      ∃ lvl : ℤ, 10 ≤ lvl ∧ lvl ≤ 20 ∧
        r.needs_reorder = decide (lvl > r.quantity) := by
  intro wids
  induction wids with
  | nil => intro e r hr; simp [inventoryLoop] at hr
  | cons w rest ih =>
      intro e r hr
      rw [inventoryLoop_cons] at hr
      rcases List.mem_cons.mp hr with h | h
      · subst h
        refine ⟨rfl, rfl, ?_, ?_, ?_⟩
        · exact (pyRandint_mem (by norm_num) _).1
        · exact (pyRandint_mem (by norm_num) _).2
        · exact ⟨(pyRandint 10 20 (pyRandint 0 20
              (pyChoicesW ["high", "medium", "low"] [] e).2).2).1,
            (pyRandint_mem (by norm_num) _).1,
            (pyRandint_mem (by norm_num) _).2, rfl⟩
      · exact ih _ r h

/-- C2: in `generate_inventory_for_product` the value sampled by
`random.choices` is a (one-element) list, so the Python `==` comparison
against the strings `'high'` and `'medium'` is always false, execution
falls through to the low branch, and every record's quantity lies in
`[0, 20]` while its reorder threshold lies in `[10, 20]`; the high and
medium ranges are never used. -/
theorem claimC2 (product_id now : ℤ) (num_warehouses : ℕ) (e : Entropy)
    (r : InventoryRecord)
    (hr : r ∈ (generate_inventory_for_product product_id now num_warehouses e).1) :
    (∀ (xs : List String) (s : String),
      pyEq (PyVal.strList xs) (PyVal.str s) = false) ∧
    0 ≤ r.quantity ∧ r.quantity ≤ 20 ∧
    ∃ lvl : ℤ, 10 ≤ lvl ∧ lvl ≤ 20 ∧
      r.needs_reorder = decide (lvl > r.quantity) := by
  obtain ⟨-, -, h1, h2, h3⟩ := inventoryLoop_spec product_id now _ e r hr
  exact ⟨pyEq_strList_str, h1, h2, h3⟩

/-- C2 witness: a concrete record generated for product 1, one warehouse,
default entropy. -/
theorem claimC2_witness :
    ((generate_inventory_for_product 1 0 1 []).1.headD default ∈
        (generate_inventory_for_product 1 0 1 []).1) ∧
    ((∀ (xs : List String) (s : String),
        pyEq (PyVal.strList xs) (PyVal.str s) = false) ∧
      0 ≤ ((generate_inventory_for_product 1 0 1 []).1.headD default).quantity ∧
      ((generate_inventory_for_product 1 0 1 []).1.headD default).quantity ≤ 20 ∧
      ∃ lvl : ℤ, 10 ≤ lvl ∧ lvl ≤ 20 ∧
        ((generate_inventory_for_product 1 0 1 []).1.headD default).needs_reorder =
          decide (lvl > ((generate_inventory_for_product 1 0 1 []).1.headD default).quantity)) :=
  ⟨by decide, claimC2 1 0 1 [] _ (by decide)⟩

/-- C8: the stored `needs_reorder` flag of every generated inventory record
is exactly the comparison `reorder_level > quantity` of the two values
sampled for that record; consequently a quantity below 10 always sets the
flag and a quantity of 20 never does. -/
theorem claimC8 (product_id now : ℤ) (num_warehouses : ℕ) (e : Entropy)
    (r : InventoryRecord)
    (hr : r ∈ (generate_inventory_for_product product_id now num_warehouses e).1) :
    ∃ lvl : ℤ, r.needs_reorder = decide (lvl > r.quantity) ∧
      10 ≤ lvl ∧ lvl ≤ 20 ∧
      (r.quantity < 10 → r.needs_reorder = true) ∧
      (20 ≤ r.quantity → r.needs_reorder = false) := by
  obtain ⟨-, -, -, -, lvl, hl1, hl2, hflag⟩ :=
    inventoryLoop_spec product_id now _ e r hr
  refine ⟨lvl, hflag, hl1, hl2, ?_, ?_⟩
  · intro hq
    rw [hflag, decide_eq_true_eq]
    omega
  · intro hq
    rw [hflag, decide_eq_false_iff_not]
    omega

/-- C8 witness: a concrete record generated for product 2 across two
warehouses. -/
theorem claimC8_witness :
    ((generate_inventory_for_product 2 0 2 []).1.headD default ∈
        (generate_inventory_for_product 2 0 2 []).1) ∧
    ∃ lvl : ℤ,
      ((generate_inventory_for_product 2 0 2 []).1.headD default).needs_reorder =
        decide (lvl > ((generate_inventory_for_product 2 0 2 []).1.headD default).quantity) ∧
      10 ≤ lvl ∧ lvl ≤ 20 ∧
      (((generate_inventory_for_product 2 0 2 []).1.headD default).quantity < 10 →
        ((generate_inventory_for_product 2 0 2 []).1.headD default).needs_reorder = true) ∧
      (20 ≤ ((generate_inventory_for_product 2 0 2 []).1.headD default).quantity →
        ((generate_inventory_for_product 2 0 2 []).1.headD default).needs_reorder = false) :=
  ⟨by decide, claimC8 2 0 2 [] _ (by decide)⟩

/-! ### Concrete fixtures for witnesses and counterexamples -/

/-- A concrete customer row. -/
def cust1 : Customer :=
  { customer_id := 1, email := "ada@example.com", first_name := "Ada",
    last_name := "L", phone := "555-0100", address := "1 Main St",
    city := "Springfield", state := "IL", zip_code := "62701",
    country := "USA", registration_date := 0, customer_segement := "VIP",
    lifetime_value := 100 }

/-- A concrete product row. -/
def prod1 : Product :=
  { product_id := 1, product_name := "Paperback", category := "Books",
    subcategory := "Fiction", brand := "Acme", price := 10, cost := 6,
    profit_margin := 40, description := "d", image_url := "u",
    weight_kg := 1, created_at := 0 }

/-- A three-row products table (catalog size 3). -/
def prods3 : List Product :=
  [prod1, { prod1 with product_id := 2 }, { prod1 with product_id := 3 }]

/-- Discriminator: is the outcome the `ConfigurationError` the spec asks
for? -/
def isConfigError (r : Except PyError (List Product × Entropy × NumpyEntropy)) : Bool :=
  match r with
  | .error (.configurationError _) => true
  | _ => false

/-- C3: requesting a cart of 10 items from a catalog of 3 products does
NOT raise a `ConfigurationError`: `DataFrame.sample` raises its own pandas
`ValueError`, i.e. the run aborts with an unrelated error. -/
theorem claimC3 :
    select_shopping_cart prods3 10 10 [] [] =
      .error (.valueError
        "Cannot take a larger sample than population when replace=False") ∧
    isConfigError (select_shopping_cart prods3 10 10 [] []) = false := by
  exact ⟨by rfl, by decide⟩

/-! ### Customer selection: the segment-weights parameter is dead -/

/-- C9: `select_random_customer` ignores its `customer_segment_weights`
argument entirely (the weights branch of the source holds only a TODO and
`pass`): for any weights value and identical random state the outcome is
identical to the call without weights, and on a non-empty customers table
it succeeds with a member of the table. -/
theorem claimC9 (customers : List Customer) (hne : customers ≠ [])
    (w : Option (List (String × ℚ))) (np : NumpyEntropy) :
    select_random_customer customers w np =
      select_random_customer customers none np ∧
    ∃ (c : Customer) (np1 : NumpyEntropy),
      select_random_customer customers w np = .ok (c, np1) ∧ c ∈ customers := by
  refine ⟨rfl, ?_⟩
  have hlen : 0 < customers.length := List.length_pos.mpr hne
  have hsample : pdSample customers 1 np = .ok (sampleAux 1 customers np) := by
    unfold pdSample
    rw [if_neg (by omega)]
  refine ⟨(sampleAux 1 customers np).1.headD default,
    (sampleAux 1 customers np).2, ?_, ?_⟩
  · unfold select_random_customer
    rw [hsample]
  · rw [sampleAux_succ]
    exact getD_mem customers _ default (Nat.mod_lt _ hlen)

/-- C9 witness: one concrete customer table, once queried with explicit
segment weights and once without. -/
theorem claimC9_witness :
    ([cust1] ≠ ([] : List Customer)) ∧
    (select_random_customer [cust1] (some [("VIP", 7 / 10)]) [] =
        select_random_customer [cust1] none [] ∧
      ∃ (c : Customer) (np1 : NumpyEntropy),
        select_random_customer [cust1] (some [("VIP", 7 / 10)]) [] =
          .ok (c, np1) ∧ c ∈ [cust1]) :=
  ⟨by decide, claimC9 [cust1] (by decide) (some [("VIP", 7 / 10)]) []⟩

/-! ### Inventory table shape: count, key uniqueness, grouping -/

/-- The `(product_id, warehouse_id)` pairs of an inventory table grouped by
product in input order, each product paired with every warehouse id in
order. -/
def groupedPairs (ws : List ℤ) : List ℤ → List (ℤ × ℤ)
  | [] => []
  | pid :: rest => ws.map (fun w => (pid, w)) ++ groupedPairs ws rest

theorem groupedPairs_length (ws : List ℤ) :
    ∀ pids : List ℤ, (groupedPairs ws pids).length = pids.length * ws.length := by
  intro pids
  induction pids with
  | nil => simp [groupedPairs]
  | cons pid rest ih =>
      simp [groupedPairs, ih]
      ring

theorem groupedPairs_fst_mem (ws : List ℤ) :
    ∀ (pids : List ℤ) (x : ℤ × ℤ), x ∈ groupedPairs ws pids → x.1 ∈ pids := by
  intro pids
  induction pids with
  | nil => intro x hx; simp [groupedPairs] at hx
  | cons pid rest ih =>
      intro x hx
      rcases List.mem_append.mp hx with h | h
      · obtain ⟨w, -, hw⟩ := List.mem_map.mp h
        rw [← hw]
        exact List.mem_cons_self _ _
      · exact List.mem_cons_of_mem _ (ih x h)

theorem groupedPairs_nodup {ws : List ℤ} (hws : ws.Nodup) :
    ∀ {pids : List ℤ}, pids.Nodup → (groupedPairs ws pids).Nodup := by
  intro pids
  induction pids with
  | nil => intro _; simp [groupedPairs]
  | cons pid rest ih =>
      intro hnd
      rw [List.nodup_cons] at hnd
      refine List.Nodup.append ?_ (ih hnd.2) ?_
      · exact hws.map (fun a b h => congrArg Prod.snd h)
      · intro x hx hx2
        obtain ⟨w, -, hw⟩ := List.mem_map.mp hx
        have : x.1 ∈ rest := groupedPairs_fst_mem ws rest x hx2
        rw [← hw] at this
        exact hnd.1 this

theorem inventoryLoop_keys (pid now : ℤ) :
    ∀ (wids : List ℤ) (e : Entropy),
      ((inventoryLoop pid now wids e).1).map
          (fun r => (r.product_id, r.warehouse_id)) =
        wids.map (fun w => (pid, w)) := by
  intro wids
  induction wids with
  | nil => intro e; simp [inventoryLoop]
  | cons w rest ih =>
      intro e
      rw [inventoryLoop_cons]
      simp only [List.map_cons, List.map]
      rw [ih]

theorem generate_inventory_keys :
    ∀ (products : List Product) (now : ℤ) (nw : ℕ) (e : Entropy),
      ((generate_inventory products now nw e).1).map
          (fun r => (r.product_id, r.warehouse_id)) =
        groupedPairs ((List.range' 1 nw).map (fun w => Int.ofNat w))
          (products.map (·.product_id)) := by
  intro products
  induction products with
  | nil => intro now nw e; simp [generate_inventory, groupedPairs]
  | cons p rest ih =>
      intro now nw e
      rw [generate_inventory]
      simp only [List.map_cons, List.map_append]
      rw [show groupedPairs ((List.range' 1 nw).map (fun w => Int.ofNat w))
            (p.product_id :: rest.map (·.product_id)) =
          ((List.range' 1 nw).map (fun w => Int.ofNat w)).map
              (fun w => (p.product_id, w)) ++
            groupedPairs ((List.range' 1 nw).map (fun w => Int.ofNat w))
              (rest.map (·.product_id)) from rfl]
      congr 1
      · rw [show generate_inventory_for_product p.product_id now nw e =
            inventoryLoop p.product_id now
              ((List.range' 1 nw).map fun w => Int.ofNat w) e from rfl]
        exact inventoryLoop_keys p.product_id now _ e
      · exact ih now nw _

/-- C7: for a products table with pairwise-distinct ids and `nw ≥ 1`
warehouses, `generate_inventory` yields exactly `|products| * nw` records,
the `(product_id, warehouse_id)` pairs are pairwise distinct, and the
records are grouped by product in input order with warehouse ids `1..nw`
in order inside each group. -/
theorem claimC7 (products : List Product) (now : ℤ) (nw : ℕ) (e : Entropy)
    (hnw : 1 ≤ nw) (hids : (products.map (·.product_id)).Nodup) :
    ((generate_inventory products now nw e).1).length = products.length * nw ∧
    ((generate_inventory products now nw e).1).map
        (fun r => (r.product_id, r.warehouse_id)) =
      groupedPairs ((List.range' 1 nw).map (fun w => Int.ofNat w))
        (products.map (·.product_id)) ∧
    (((generate_inventory products now nw e).1).map
        (fun r => (r.product_id, r.warehouse_id))).Nodup := by
  have hkeys := generate_inventory_keys products now nw e
  have hwnd : (((List.range' 1 nw).map (fun w => Int.ofNat w))).Nodup :=
    (List.nodup_range' 1 nw).map (fun a b h => Int.ofNat.inj h)
  refine ⟨?_, hkeys, ?_⟩
  · have h1 : (((generate_inventory products now nw e).1).map
        (fun r => (r.product_id, r.warehouse_id))).length =
        (groupedPairs ((List.range' 1 nw).map (fun w => Int.ofNat w))
          (products.map (·.product_id))).length := by rw [hkeys]
    rw [List.length_map] at h1
    rw [h1, groupedPairs_length, List.length_map, List.length_map,
      List.length_range']
  · rw [hkeys]
    exact groupedPairs_nodup hwnd hids

/-- C7 witness: three products, two warehouses. -/
theorem claimC7_witness :
    ((1 : ℕ) ≤ 2 ∧ (prods3.map (·.product_id)).Nodup) ∧
    (((generate_inventory prods3 0 2 []).1).length = prods3.length * 2 ∧
      ((generate_inventory prods3 0 2 []).1).map
          (fun r => (r.product_id, r.warehouse_id)) =
        groupedPairs ((List.range' 1 2).map (fun w => Int.ofNat w))
          (prods3.map (·.product_id)) ∧
      (((generate_inventory prods3 0 2 []).1).map
          (fun r => (r.product_id, r.warehouse_id))).Nodup) :=
  ⟨⟨by decide, by decide⟩, claimC7 prods3 0 2 [] (by decide) (by decide)⟩

/-! ### Product pricing: range, cost factor, margin -/

theorem priceRange_facts (c : String) (hc : c ∈ categoryKeys) :
    ∃ lo hi : ℤ, priceRangeOf c = ((lo : ℚ), (hi : ℚ)) ∧ 3 ≤ lo ∧ lo ≤ hi := by
  simp only [categoryKeys, categories, List.map_cons, List.map_nil,
    List.mem_cons, List.not_mem_nil, or_false] at hc
  rcases hc with h | h | h | h | h | h | h <;> subst h
  · exact ⟨50, 2000, by decide, by decide, by decide⟩
  · exact ⟨15, 300, by decide, by decide, by decide⟩
  · exact ⟨20, 1500, by decide, by decide, by decide⟩
  · exact ⟨10, 500, by decide, by decide, by decide⟩
  · exact ⟨5, 50, by decide, by decide, by decide⟩
  · exact ⟨10, 200, by decide, by decide, by decide⟩
  · exact ⟨3, 100, by decide, by decide, by decide⟩

/-- The arithmetic core of the pricing invariants: a price rounded from a
category range `[lo, hi]` with `3 ≤ lo`, a cost rounded from
`price * fpc` with `fpc ∈ [2/5, 4/5]`, and the resulting margin. -/
theorem price_cost_margin {lo hi : ℤ} (hlo : 3 ≤ lo) (hlohi : lo ≤ hi)
    {u fpc : ℚ} (hu1 : (lo : ℚ) ≤ u) (hu2 : u ≤ (hi : ℚ))
    (hf1 : 2 / 5 ≤ fpc) (hf2 : fpc ≤ 4 / 5) :
    (lo : ℚ) ≤ round2 u ∧ round2 u ≤ (hi : ℚ) ∧
    0 < round2 (round2 u * fpc) ∧ round2 (round2 u * fpc) < round2 u ∧
    0 < round2 ((round2 u - round2 (round2 u * fpc)) / round2 u * 100) ∧
    round2 ((round2 u - round2 (round2 u * fpc)) / round2 u * 100) < 100 := by
  have h1 : (lo : ℚ) ≤ round2 u := by
    have := round2_mono hu1
    rwa [round2_of_cents (cents_intCast lo)] at this
  have h2 : round2 u ≤ (hi : ℚ) := by
    have := round2_mono hu2
    rwa [round2_of_cents (cents_intCast hi)] at this
  have hlo3 : (3 : ℚ) ≤ (lo : ℚ) := by exact_mod_cast hlo
  have hp3 : (3 : ℚ) ≤ round2 u := le_trans hlo3 h1
  have hp : (0 : ℚ) < round2 u := by linarith
  set price := round2 u with hprice_def
  set cost := round2 (price * fpc) with hcost_def
  have hcb := round2_bounds (price * fpc)
  have hmul_lb : price * (2 / 5) ≤ price * fpc :=
    mul_le_mul_of_nonneg_left hf1 (le_of_lt hp)
  have hmul_ub : price * fpc ≤ price * (4 / 5) :=
    mul_le_mul_of_nonneg_left hf2 (le_of_lt hp)
  have hcost_lb : (2 / 5) * price - 1 / 200 ≤ cost := by
    have := hcb.1
    nlinarith
  have hcost_ub : cost ≤ (4 / 5) * price + 1 / 200 := by
    have := hcb.2
    nlinarith
  have hcost_pos : 0 < cost := by nlinarith
  have hcost_lt : cost < price := by nlinarith
  set m := (price - cost) / price * 100 with hm_def
  have hm : m * price = (price - cost) * 100 := by
    rw [hm_def]
    field_simp
  have hmb := round2_bounds m
  have hm19 : 19 ≤ m := by nlinarith
  have hm61 : m ≤ 61 := by nlinarith
  refine ⟨h1, h2, hcost_pos, hcost_lt, ?_, ?_⟩
  · linarith [hmb.1]
  · linarith [hmb.2]

/-- C5: every product from `generate_single_product` has a price inside
its category's range (a multiple of a cent), a cost derived by rounding
`price * fpc` for some factor `fpc ∈ [0.4, 0.8]`, `0 < cost < price`, a
profit margin computed by the source formula, and `0 < margin < 100`. -/
theorem claimC5 (product_id now : ℤ) (f : FakerState) (e : Entropy) :
    (priceRangeOf (generate_single_product product_id now f e).1.category).1 ≤
        (generate_single_product product_id now f e).1.price ∧
    (generate_single_product product_id now f e).1.price ≤
        (priceRangeOf (generate_single_product product_id now f e).1.category).2 ∧
    Cents (generate_single_product product_id now f e).1.price ∧
    (∃ fpc : ℚ, 2 / 5 ≤ fpc ∧ fpc ≤ 4 / 5 ∧
      (generate_single_product product_id now f e).1.cost =
        round2 ((generate_single_product product_id now f e).1.price * fpc)) ∧
    0 < (generate_single_product product_id now f e).1.cost ∧
    (generate_single_product product_id now f e).1.cost <
      (generate_single_product product_id now f e).1.price ∧
    (generate_single_product product_id now f e).1.profit_margin =
      round2 (((generate_single_product product_id now f e).1.price -
          (generate_single_product product_id now f e).1.cost) /
        (generate_single_product product_id now f e).1.price * 100) ∧
    0 < (generate_single_product product_id now f e).1.profit_margin ∧
    (generate_single_product product_id now f e).1.profit_margin < 100 := by
  have hcat : (generate_single_product product_id now f e).1.category =
      (pyChoice categoryKeys e).1 := rfl
  have hc : (pyChoice categoryKeys e).1 ∈ categoryKeys :=
    pyChoice_mem (by decide) e
  obtain ⟨lo, hi, hrange, hlo, hlohi⟩ :=
    priceRange_facts (pyChoice categoryKeys e).1 hc
  have hprice : (generate_single_product product_id now f e).1.price =
      round2 (pyUniform (priceRangeOf (pyChoice categoryKeys e).1).1
        (priceRangeOf (pyChoice categoryKeys e).1).2
        (pyChoice (subcategoriesOf (pyChoice categoryKeys e).1)
          (pyChoice categoryKeys e).2).2).1 := rfl
  have hcost : (generate_single_product product_id now f e).1.cost =
      round2 ((generate_single_product product_id now f e).1.price *
        (pyUniform (2 / 5) (4 / 5)
          (pyUniform (priceRangeOf (pyChoice categoryKeys e).1).1
            (priceRangeOf (pyChoice categoryKeys e).1).2
            (pyChoice (subcategoriesOf (pyChoice categoryKeys e).1)
              (pyChoice categoryKeys e).2).2).2).1) := rfl
  have hmargin : (generate_single_product product_id now f e).1.profit_margin =
      round2 (((generate_single_product product_id now f e).1.price -
          (generate_single_product product_id now f e).1.cost) /
        (generate_single_product product_id now f e).1.price * 100) := rfl
  have hfst : (priceRangeOf (pyChoice categoryKeys e).1).1 = (lo : ℚ) := by
    rw [hrange]
  have hsnd : (priceRangeOf (pyChoice categoryKeys e).1).2 = (hi : ℚ) := by
    rw [hrange]
  have hu := pyUniform_mem (priceRangeOf (pyChoice categoryKeys e).1).1
    (priceRangeOf (pyChoice categoryKeys e).1).2
    (by rw [hfst, hsnd]; exact_mod_cast hlohi)
    (pyChoice (subcategoriesOf (pyChoice categoryKeys e).1)
      (pyChoice categoryKeys e).2).2
  have hf := pyUniform_mem (2 / 5 : ℚ) (4 / 5 : ℚ) (by norm_num)
    (pyUniform (priceRangeOf (pyChoice categoryKeys e).1).1
      (priceRangeOf (pyChoice categoryKeys e).1).2
      (pyChoice (subcategoriesOf (pyChoice categoryKeys e).1)
        (pyChoice categoryKeys e).2).2).2
  rw [hfst, hsnd] at hprice hcost hu hf
  obtain ⟨g1, g2, g3, g4, g5, g6⟩ :=
    price_cost_margin hlo hlohi hu.1 hu.2 hf.1 hf.2
  rw [hcat, hfst, hsnd]
  refine ⟨?_, ?_, ?_, ?_, ?_, ?_, hmargin, ?_, ?_⟩
  · rw [hprice]; exact g1
  · rw [hprice]; exact g2
  · rw [hprice]; exact cents_round2 _
  · exact ⟨_, hf.1, hf.2, hcost⟩
  · rw [hcost, hprice]; exact g3
  · rw [hcost, hprice]; exact g4
  · rw [hmargin, hcost, hprice]; exact g5
  · rw [hmargin, hcost, hprice]; exact g6

/-! ### Line items: quantity, discount cap, positive subtotal -/

theorem cents_neg {q : ℚ} (h : Cents q) : Cents (-q) := by
  obtain ⟨n, rfl⟩ := h
  exact ⟨-n, by push_cast; ring⟩

theorem cents_sub {a b : ℚ} (ha : Cents a) (hb : Cents b) : Cents (a - b) := by
  rw [sub_eq_add_neg]
  exact cents_add ha (cents_neg hb)

theorem cents_pos_ge {q : ℚ} (h : Cents q) (hq : 0 < q) : 1 / 100 ≤ q := by
  obtain ⟨n, rfl⟩ := h
  have hn : 0 < n := by
    by_contra hle
    push_neg at hle
    have : ((n : ℚ) / 100) ≤ 0 := by
      have : (n : ℚ) ≤ 0 := by exact_mod_cast hle
      linarith
    linarith
  have : (1 : ℚ) ≤ (n : ℚ) := by exact_mod_cast hn
  linarith

/-- A positive, cent-valued price from the catalog: every product built by
`generate_single_product` satisfies both. -/
theorem generate_single_product_price_pos (product_id now : ℤ)
    (f : FakerState) (e : Entropy) :
    Cents (generate_single_product product_id now f e).1.price ∧
    0 < (generate_single_product product_id now f e).1.price := by
  have hc : (pyChoice categoryKeys e).1 ∈ categoryKeys :=
    pyChoice_mem (by decide) e
  obtain ⟨lo, hi, hrange, hlo, hlohi⟩ :=
    priceRange_facts (pyChoice categoryKeys e).1 hc
  have hprice : (generate_single_product product_id now f e).1.price =
      round2 (pyUniform (priceRangeOf (pyChoice categoryKeys e).1).1
        (priceRangeOf (pyChoice categoryKeys e).1).2
        (pyChoice (subcategoriesOf (pyChoice categoryKeys e).1)
          (pyChoice categoryKeys e).2).2).1 := rfl
  have hfst : (priceRangeOf (pyChoice categoryKeys e).1).1 = (lo : ℚ) := by
    rw [hrange]
  have hsnd : (priceRangeOf (pyChoice categoryKeys e).1).2 = (hi : ℚ) := by
    rw [hrange]
  rw [hfst, hsnd] at hprice
  have hu := pyUniform_mem (lo : ℚ) (hi : ℚ) (by exact_mod_cast hlohi)
    (pyChoice (subcategoriesOf (pyChoice categoryKeys e).1)
      (pyChoice categoryKeys e).2).2
  constructor
  · rw [hprice]; exact cents_round2 _
  · rw [hprice]
    have h1 : (lo : ℚ) ≤ round2 (pyUniform (lo : ℚ) (hi : ℚ)
        (pyChoice (subcategoriesOf (pyChoice categoryKeys e).1)
          (pyChoice categoryKeys e).2).2).1 := by
      have := round2_mono hu.1
      rwa [round2_of_cents (cents_intCast lo)] at this
    have hlo3 : (3 : ℚ) ≤ (lo : ℚ) := by exact_mod_cast hlo
    linarith

theorem generate_transaction_items_cons (tid : String) (product : Product)
    (rest : List Product) (e : Entropy) :
    generate_transaction_items tid (product :: rest) e =
      (({ transaction_id := tid,
          product_id := product.product_id,
          product_name := product.product_name,
          category := product.category,
          quantity := (pyRandint 1 5 e).1,
          unit_price := product.price,
          discount_amount := round2 (product.price *
            ((pyRandint 1 5 e).1 : ℚ) *
            ((pyChoice [(0 : ℚ), 0, 0, 5, 10, 15, 20] (pyRandint 1 5 e).2).1 / 100)),
          subtotal := round2 (product.price * ((pyRandint 1 5 e).1 : ℚ) -
            round2 (product.price * ((pyRandint 1 5 e).1 : ℚ) *
              ((pyChoice [(0 : ℚ), 0, 0, 5, 10, 15, 20] (pyRandint 1 5 e).2).1 / 100))) } :
          TransactionItem) ::
        (generate_transaction_items tid rest
          (pyChoice [(0 : ℚ), 0, 0, 5, 10, 15, 20] (pyRandint 1 5 e).2).2).1,
       (generate_transaction_items tid rest
          (pyChoice [(0 : ℚ), 0, 0, 5, 10, 15, 20] (pyRandint 1 5 e).2).2).2) := rfl

/-- Shape of every generated line item: its fields come from one cart
product, a quantity draw in `[1, 5]` and a discount percentage drawn from
the fixed weighted set. -/
theorem generate_transaction_items_spec (tid : String) :
    ∀ (cart : List Product) (e : Entropy) (it : TransactionItem),
      it ∈ (generate_transaction_items tid cart e).1 →
      ∃ p ∈ cart, ∃ pct ∈ [(0 : ℚ), 0, 0, 5, 10, 15, 20],
        it.transaction_id = tid ∧
        it.unit_price = p.price ∧
        1 ≤ it.quantity ∧ it.quantity ≤ 5 ∧
        it.discount_amount =
          round2 (it.unit_price * (it.quantity : ℚ) * (pct / 100)) ∧
        it.subtotal =
          round2 (it.unit_price * (it.quantity : ℚ) - it.discount_amount) := by
  intro cart
  induction cart with
  | nil => intro e it hit; simp [generate_transaction_items] at hit
  | cons product rest ih =>
      intro e it hit
      rw [generate_transaction_items_cons] at hit
      rcases List.mem_cons.mp hit with h | h
      · subst h
        refine ⟨product, List.mem_cons_self _ _,
          (pyChoice [(0 : ℚ), 0, 0, 5, 10, 15, 20] (pyRandint 1 5 e).2).1,
          pyChoice_mem (by decide) _, rfl, rfl,
          (pyRandint_mem (by norm_num) e).1,
          (pyRandint_mem (by norm_num) e).2, rfl, rfl⟩
      · obtain ⟨p, hp, pct, hpct, rest'⟩ := ih _ it h
        exact ⟨p, List.mem_cons_of_mem _ hp, pct, hpct, rest'⟩

/-- Money arithmetic for one line item over a positive cent-valued unit
price. -/
theorem item_money_facts {u : ℚ} (hu : Cents u) (hup : 0 < u)
    {q : ℤ} (hq1 : 1 ≤ q) (hq5 : q ≤ 5)
    {pct : ℚ} (hpct : pct ∈ [(0 : ℚ), 0, 0, 5, 10, 15, 20]) :
    0 ≤ round2 (u * (q : ℚ) * (pct / 100)) ∧
    round2 (u * (q : ℚ) * (pct / 100)) ≤ round2 (u * (q : ℚ) * (20 / 100)) ∧
    0 < round2 (u * (q : ℚ) - round2 (u * (q : ℚ) * (pct / 100))) := by
  have hpb : 0 ≤ pct ∧ pct ≤ 20 := by
    simp only [List.mem_cons, List.not_mem_nil, or_false] at hpct
    rcases hpct with rfl | rfl | rfl | rfl | rfl | rfl | rfl <;>
      constructor <;> norm_num
  have hq0 : (0 : ℚ) ≤ (q : ℚ) := by exact_mod_cast le_trans (by norm_num) hq1
  have hq1' : (1 : ℚ) ≤ (q : ℚ) := by exact_mod_cast hq1
  have huq0 : 0 ≤ u * (q : ℚ) := mul_nonneg hup.le hq0
  have huq : (1 : ℚ) / 100 ≤ u * (q : ℚ) := by
    have h1 : 1 / 100 ≤ u := cents_pos_ge hu hup
    nlinarith
  have hcuq : Cents (u * (q : ℚ)) := cents_mul_int hu q
  refine ⟨?_, ?_, ?_⟩
  · exact round2_nonneg (mul_nonneg huq0 (by linarith))
  · exact round2_mono (mul_le_mul_of_nonneg_left (by linarith) huq0)
  · have hb := round2_bounds (u * (q : ℚ) * (pct / 100))
    have hdub : round2 (u * (q : ℚ) * (pct / 100)) ≤
        u * (q : ℚ) * (20 / 100) + 1 / 200 := by
      have : u * (q : ℚ) * (pct / 100) ≤ u * (q : ℚ) * (20 / 100) :=
        mul_le_mul_of_nonneg_left (by linarith) huq0
      linarith [hb.2]
    have hsub : Cents (u * (q : ℚ) - round2 (u * (q : ℚ) * (pct / 100))) :=
      cents_sub hcuq (cents_round2 _)
    rw [round2_of_cents hsub]
    nlinarith

/-- C10: over a cart of positive cent-valued prices — as all products from
`generate_single_product` have — every generated line item has quantity in
`[1, 5]`, a discount between 0 and the rounded 20% cap, and a strictly
positive subtotal. -/
theorem claimC10 (tid : String) (cart : List Product) (e : Entropy)
    (hcart : ∀ p ∈ cart, Cents p.price ∧ 0 < p.price)
    (it : TransactionItem)
    (hit : it ∈ (generate_transaction_items tid cart e).1) :
    (∀ (pid nowp : ℤ) (fp : FakerState) (ep : Entropy),
      Cents (generate_single_product pid nowp fp ep).1.price ∧
      0 < (generate_single_product pid nowp fp ep).1.price) ∧
    1 ≤ it.quantity ∧ it.quantity ≤ 5 ∧
    0 ≤ it.discount_amount ∧
    it.discount_amount ≤
      round2 (it.unit_price * (it.quantity : ℚ) * (20 / 100)) ∧
    0 < it.subtotal := by
  obtain ⟨p, hp, pct, hpct, -, hupr, hq1, hq5, hdisc, hsub⟩ :=
    generate_transaction_items_spec tid cart e it hit
  obtain ⟨hcents, hpos⟩ := hcart p hp
  rw [← hupr] at hcents hpos
  obtain ⟨m1, m2, m3⟩ := item_money_facts hcents hpos hq1 hq5 hpct
  refine ⟨fun pid nowp fp ep => generate_single_product_price_pos pid nowp fp ep,
    hq1, hq5, ?_, ?_, ?_⟩
  · rw [hdisc]; exact m1
  · rw [hdisc]; exact m2
  · rw [hsub, hdisc]; exact m3

/-- C10 witness: a one-product cart with price `10.00`. -/
theorem claimC10_witness :
    (∀ p ∈ [prod1], Cents p.price ∧ 0 < p.price) ∧
    ((generate_transaction_items "TXN-x" [prod1] []).1.headD default ∈
      (generate_transaction_items "TXN-x" [prod1] []).1) ∧
    ((∀ (pid nowp : ℤ) (fp : FakerState) (ep : Entropy),
        Cents (generate_single_product pid nowp fp ep).1.price ∧
        0 < (generate_single_product pid nowp fp ep).1.price) ∧
      1 ≤ ((generate_transaction_items "TXN-x" [prod1] []).1.headD default).quantity ∧
      ((generate_transaction_items "TXN-x" [prod1] []).1.headD default).quantity ≤ 5 ∧
      0 ≤ ((generate_transaction_items "TXN-x" [prod1] []).1.headD default).discount_amount ∧
      ((generate_transaction_items "TXN-x" [prod1] []).1.headD default).discount_amount ≤
        round2 (((generate_transaction_items "TXN-x" [prod1] []).1.headD default).unit_price *
          (((generate_transaction_items "TXN-x" [prod1] []).1.headD default).quantity : ℚ) *
          (20 / 100)) ∧
      0 < ((generate_transaction_items "TXN-x" [prod1] []).1.headD default).subtotal) := by
  have hcart : ∀ p ∈ [prod1], Cents p.price ∧ 0 < p.price := by
    intro p hp
    rw [List.mem_singleton] at hp
    subst hp
    exact ⟨⟨1000, by norm_num [prod1]⟩, by norm_num [prod1]⟩
  exact ⟨hcart, List.mem_cons_self _ _,
    claimC10 "TXN-x" [prod1] [] hcart _ (List.mem_cons_self _ _)⟩

/-! ### Transaction totals -/

theorem items_cents (tid : String) (cart : List Product) (e : Entropy) :
    ∀ it ∈ (generate_transaction_items tid cart e).1,
      Cents it.subtotal ∧ Cents it.discount_amount := by
  intro it hit
  obtain ⟨p, -, pct, -, -, -, -, -, hdisc, hsub⟩ :=
    generate_transaction_items_spec tid cart e it hit
  exact ⟨hsub ▸ cents_round2 _, hdisc ▸ cents_round2 _⟩

set_option maxHeartbeats 1000000 in
/-- Successful runs of `generate_single_transaction` store the totals of
their own line-item list, which is produced by
`generate_transaction_items` from some cart. -/
theorem gst_ok_shape (customers : List Customer) (products : List Product)
    (now : ℤ) (e : Entropy) (np : NumpyEntropy) (us : Uuids) (t : Transaction)
    (its : List TransactionItem) (rest : Entropy × NumpyEntropy × Uuids)
    (hrun : generate_single_transaction customers products now none e np us =
      .ok ((t, its), rest)) :
    ∃ (cart : List Product) (e2 : Entropy),
      its = (generate_transaction_items ("TXN-" ++ (us.headD "").take 8) cart e2).1 ∧
      t.subtotal = (its.map (·.subtotal)).sum ∧
      t.tax_amount = round2 (t.subtotal * (8 / 100)) ∧
      t.total_amount = round2 (t.subtotal + t.tax_amount) ∧
      t.total_discount = (its.map (·.discount_amount)).sum ∧
      t.num_items = its.length := by
  unfold generate_single_transaction at hrun
  split at hrun
  rename_i tid us1 hid
  have htid : tid = "TXN-" ++ (us.headD "").take 8 := by
    rw [show generate_transaction_id us =
      ("TXN-" ++ (us.headD "").take 8, us.tail) from rfl, Prod.mk.injEq] at hid
    exact hid.1.symm
  split at hrun
  · exact absurd hrun (by simp)
  split at hrun
  · exact absurd hrun (by simp)
  rename_i customer np1 hsel cart e2 np2 hcart
  simp only [Except.ok.injEq, Prod.mk.injEq] at hrun
  obtain ⟨⟨htx, hits⟩, -⟩ := hrun
  subst htx
  subst hits
  rw [htid]
  exact ⟨cart, e2, rfl, rfl, rfl, rfl, rfl, rfl⟩

/-- C1: `calculate_transaction_totals` returns the exact sum of the item
subtotals, the rounded 8% tax, the rounded grand total and the exact sum
of the discounts; consequently every transaction produced by
`generate_single_transaction` satisfies
`total_amount = round2(subtotal + tax_amount)` and
`subtotal = round2(Σ item.subtotal)` over its own line items. -/
theorem claimC1 (items : List TransactionItem) (hne : items ≠ [])
    (customers : List Customer) (products : List Product) (now : ℤ)
    (e : Entropy) (np : NumpyEntropy) (us : Uuids) (t : Transaction)
    (its : List TransactionItem) (rest : Entropy × NumpyEntropy × Uuids)
    (hrun : generate_single_transaction customers products now none e np us =
      .ok ((t, its), rest)) :
    (calculate_transaction_totals items).subtotal =
      (items.map (·.subtotal)).sum ∧
    (calculate_transaction_totals items).tax_amount =
      round2 ((items.map (·.subtotal)).sum * (8 / 100)) ∧
    (calculate_transaction_totals items).total_amount =
      round2 ((calculate_transaction_totals items).subtotal +
        (calculate_transaction_totals items).tax_amount) ∧
    (calculate_transaction_totals items).total_discount =
      (items.map (·.discount_amount)).sum ∧
    t.total_amount = round2 (t.subtotal + t.tax_amount) ∧
    t.subtotal = round2 ((its.map (·.subtotal)).sum) := by
  obtain ⟨cart, e2, hitems, hsub, htax, htotal, hdisc, -⟩ :=
    gst_ok_shape customers products now e np us t its rest hrun
  refine ⟨rfl, rfl, rfl, rfl, ?_, ?_⟩
  · rw [htotal]
  · rw [hsub]
    have hcents : Cents ((its.map (·.subtotal)).sum) := by
      apply cents_sum
      intro x hx
      obtain ⟨it, hit, hxeq⟩ := List.mem_map.mp hx
      rw [← hxeq]
      exact (items_cents _ cart e2 it (hitems ▸ hit)).1
    rw [round2_of_cents hcents]

/-- Transaction component of a single-transaction outcome. -/
def txnOf (r : Except PyError ((Transaction × List TransactionItem) ×
    Entropy × NumpyEntropy × Uuids)) : Transaction :=
  match r with
  | .ok ((t, _), _) => t
  | .error _ => default

/-- Line-item component of a single-transaction outcome. -/
def itemsOf (r : Except PyError ((Transaction × List TransactionItem) ×
    Entropy × NumpyEntropy × Uuids)) : List TransactionItem :=
  match r with
  | .ok ((_, its), _) => its
  | .error _ => []

/-- Residual stream component of a single-transaction outcome. -/
def stateOf (r : Except PyError ((Transaction × List TransactionItem) ×
    Entropy × NumpyEntropy × Uuids)) : Entropy × NumpyEntropy × Uuids :=
  match r with
  | .ok (_, s) => s
  | .error _ => ([], [], [])

/-- A concrete single-transaction run: one customer, one product, default
seeded and numpy entropy, one uuid. -/
def gstEx : Except PyError ((Transaction × List TransactionItem) ×
    Entropy × NumpyEntropy × Uuids) :=
  generate_single_transaction [cust1] [prod1] 0 none [] []
    ["aaaaaaaa-0000-4000-8000-000000000000"]

/-- C1 witness: the concrete run `gstEx` succeeds and its transaction and
line items satisfy the totals invariants. -/
theorem claimC1_witness :
    (itemsOf gstEx ≠ []) ∧
    (generate_single_transaction [cust1] [prod1] 0 none [] []
        ["aaaaaaaa-0000-4000-8000-000000000000"] =
      .ok ((txnOf gstEx, itemsOf gstEx), stateOf gstEx)) ∧
    ((calculate_transaction_totals (itemsOf gstEx)).subtotal =
        ((itemsOf gstEx).map (·.subtotal)).sum ∧
      (calculate_transaction_totals (itemsOf gstEx)).tax_amount =
        round2 (((itemsOf gstEx).map (·.subtotal)).sum * (8 / 100)) ∧
      (calculate_transaction_totals (itemsOf gstEx)).total_amount =
        round2 ((calculate_transaction_totals (itemsOf gstEx)).subtotal +
          (calculate_transaction_totals (itemsOf gstEx)).tax_amount) ∧
      (calculate_transaction_totals (itemsOf gstEx)).total_discount =
        ((itemsOf gstEx).map (·.discount_amount)).sum ∧
      (txnOf gstEx).total_amount =
        round2 ((txnOf gstEx).subtotal + (txnOf gstEx).tax_amount) ∧
      (txnOf gstEx).subtotal =
        round2 (((itemsOf gstEx).map (·.subtotal)).sum)) :=
  ⟨List.cons_ne_nil _ _, rfl,
    claimC1 (itemsOf gstEx) (List.cons_ne_nil _ _) [cust1] [prod1] 0 [] []
      ["aaaaaaaa-0000-4000-8000-000000000000"] (txnOf gstEx) (itemsOf gstEx)
      (stateOf gstEx) rfl⟩

/-! ### Transaction ids: format and (non-)uniqueness -/

/-- Lowercase-hex check for one character of a uuid string. -/
def isHexChar (c : Char) : Bool :=
  c.isDigit || (decide ('a' ≤ c) && decide (c ≤ 'f'))

theorem getD_zero_headD (us : Uuids) (d : String) : us.getD 0 d = us.headD d := by
  cases us <;> rfl

theorem tail_getD (us : Uuids) (i : ℕ) (d : String) :
    us.tail.getD i d = us.getD (i + 1) d := by
  cases us <;> rfl

/-- Every successful single transaction carries the id built from the head
of the uuid stream and consumes exactly that one uuid. -/
theorem gst_tid (customers : List Customer) (products : List Product)
    (now : ℤ) (td : Option ℤ) (e : Entropy) (np : NumpyEntropy) (us : Uuids)
    (t : Transaction) (its : List TransactionItem)
    (rest : Entropy × NumpyEntropy × Uuids)
    (hrun : generate_single_transaction customers products now td e np us =
      .ok ((t, its), rest)) :
    t.transaction_id = "TXN-" ++ (us.headD "").take 8 ∧
    rest.2.2 = us.tail := by
  unfold generate_single_transaction at hrun
  split at hrun
  rename_i tid us1 hid
  rw [show generate_transaction_id us =
    ("TXN-" ++ (us.headD "").take 8, us.tail) from rfl, Prod.mk.injEq] at hid
  split at hrun
  · exact absurd hrun (by simp)
  split at hrun
  · exact absurd hrun (by simp)
  simp only [Except.ok.injEq, Prod.mk.injEq] at hrun
  obtain ⟨⟨htx, -⟩, hpair⟩ := hrun
  constructor
  · rw [← htx]
    exact hid.1.symm
  · rw [← hpair]
    exact hid.2.symm

/-- The transaction ids of a successful run are, in order, `TXN-` plus the
8-character prefixes of the consumed uuid stream. -/
theorem generate_transactions_loop_ids (customers : List Customer)
    (products : List Product) (now : ℤ) :
    ∀ (n : ℕ) (e : Entropy) (np : NumpyEntropy) (us : Uuids)
      (ts : List Transaction) (its : List TransactionItem)
      (rest : Entropy × NumpyEntropy × Uuids),
      generate_transactions_loop customers products now n e np us =
        .ok ((ts, its), rest) →
      ts.map (·.transaction_id) =
        (List.range n).map (fun i => "TXN-" ++ (us.getD i "").take 8) := by
  intro n
  induction n with
  | zero =>
      intro e np us ts its rest hloop
      simp only [generate_transactions_loop, Except.ok.injEq,
        Prod.mk.injEq] at hloop
      obtain ⟨⟨hts, -⟩, -⟩ := hloop
      rw [← hts]
      simp
  | succ m ih =>
      intro e np us ts its rest hloop
      rw [show generate_transactions_loop customers products now (m + 1) e np us =
        (match generate_single_transaction customers products now none e np us with
          | .error err => .error err
          | .ok ((t, items), e1, np1, us1) =>
            match generate_transactions_loop customers products now m e1 np1 us1 with
            | .error err => .error err
            | .ok ((ts0, its0), rest0) =>
              .ok ((t :: ts0, items ++ its0), rest0)) from rfl] at hloop
      rcases hgst : generate_single_transaction customers products now none e np us
        with err | ⟨⟨t, items⟩, e1, np1, us1⟩
      · rw [hgst] at hloop
        exact absurd hloop (by simp)
      rw [hgst] at hloop
      simp only [] at hloop
      rcases hrec : generate_transactions_loop customers products now m e1 np1 us1
        with err | ⟨⟨ts0, its0⟩, rest0⟩
      · rw [hrec] at hloop
        exact absurd hloop (by simp)
      rw [hrec] at hloop
      simp only [Except.ok.injEq, Prod.mk.injEq] at hloop
      obtain ⟨⟨hts, -⟩, -⟩ := hloop
      obtain ⟨htid, hus1⟩ := gst_tid customers products now none e np us t items
        (e1, np1, us1) hgst
      have hrec' := ih e1 np1 us1 ts0 its0 rest0 hrec
      rw [← hts, List.map_cons, htid, hrec', List.range_succ_eq_map,
        List.map_cons, List.map_map]
      have hfun : ((fun i => "TXN-" ++ (us1.getD i "").take 8) : ℕ → String) =
          fun i => "TXN-" ++ (us.getD (i + 1) "").take 8 := by
        funext i
        rw [show us1 = us.tail from hus1, tail_getD]
      rw [hfun, getD_zero_headD]
      rfl

theorem txn_prefix_inj : Function.Injective (fun s : String => "TXN-" ++ s) := by
  intro a b h
  have hd : ("TXN-" ++ a).data = ("TXN-" ++ b).data := congrArg String.data h
  rw [String.data_append, String.data_append] at hd
  have hdata := List.append_cancel_left hd
  cases a
  cases b
  exact congrArg String.mk hdata

/-- C6 amended: every transaction id of a successful
`generate_transactions` run has the form `TXN-` followed by the 8-character
prefix of a drawn uuid4 string — 8 lowercase hex characters — and the ids
are pairwise distinct exactly when those 8-character uuid prefixes are,
which uuid4 does NOT guarantee. -/
theorem claimC6_amended (customers : List Customer) (products : List Product)
    (n : ℕ) (now : ℤ) (e : Entropy) (np : NumpyEntropy) (us : Uuids)
    (ts : List Transaction) (its : List TransactionItem)
    (rest : Entropy × NumpyEntropy × Uuids)
    (hrun : generate_transactions customers products n now e np us =
      .ok ((ts, its), rest))
    (hn : n ≤ us.length)
    (hus : ∀ u ∈ us, (u.take 8).length = 8 ∧ (u.take 8).data.all isHexChar = true)
    (hpre : ((List.range n).map (fun i => (us.getD i "").take 8)).Nodup) :
    ts.map (·.transaction_id) =
      (List.range n).map (fun i => "TXN-" ++ (us.getD i "").take 8) ∧
    (∀ t ∈ ts, ∃ h8 : String, t.transaction_id = "TXN-" ++ h8 ∧
      h8.length = 8 ∧ h8.data.all isHexChar = true) ∧
    (ts.map (·.transaction_id)).Nodup := by
  have hids := generate_transactions_loop_ids customers products now n e np us
    ts its rest hrun
  refine ⟨hids, ?_, ?_⟩
  · intro t ht
    have hmem : t.transaction_id ∈ ts.map (·.transaction_id) :=
      List.mem_map_of_mem _ ht
    rw [hids] at hmem
    obtain ⟨i, hi, heq⟩ := List.mem_map.mp hmem
    rw [List.mem_range] at hi
    have hlt : i < us.length := lt_of_lt_of_le hi hn
    obtain ⟨hlen, hhex⟩ := hus _ (getD_mem us i "" hlt)
    exact ⟨(us.getD i "").take 8, heq.symm, hlen, hhex⟩
  · rw [hids, show ((List.range n).map (fun i => "TXN-" ++ (us.getD i "").take 8)) =
      ((List.range n).map (fun i => (us.getD i "").take 8)).map
        (fun s => "TXN-" ++ s) from by rw [List.map_map]; rfl]
    exact hpre.map txn_prefix_inj

/-- Transactions-table component of a `generate_transactions` outcome. -/
def txnsOf (r : Except PyError
    ((List Transaction × List TransactionItem) × Entropy × NumpyEntropy × Uuids)) :
    List Transaction :=
  match r with
  | .ok ((ts, _), _) => ts
  | .error _ => []

/-- Items-table component of a `generate_transactions` outcome. -/
def txnsItemsOf (r : Except PyError
    ((List Transaction × List TransactionItem) × Entropy × NumpyEntropy × Uuids)) :
    List TransactionItem :=
  match r with
  | .ok ((_, its), _) => its
  | .error _ => []

/-- Residual-stream component of a `generate_transactions` outcome. -/
def txnsRestOf (r : Except PyError
    ((List Transaction × List TransactionItem) × Entropy × NumpyEntropy × Uuids)) :
    Entropy × NumpyEntropy × Uuids :=
  match r with
  | .ok (_, s) => s
  | .error _ => ([], [], [])

/-- Two DISTINCT uuid4 strings sharing their first 8 characters: possible
OS outputs of two `uuid.uuid4()` calls. -/
def uuidsDup : Uuids :=
  ["aaaaaaaa-0000-4000-8000-000000000000", "aaaaaaaa-1111-4111-8111-111111111111"]

/-- C6 counterexample: with two distinct uuid draws that share an 8-char
prefix, `generate_transactions` emits two transactions with EQUAL
transaction ids — the ids are not pairwise distinct. -/
theorem claimC6_counterexample :
    (txnsOf (generate_transactions [cust1] [prod1] 2 0 [] [] uuidsDup)).map
        (·.transaction_id) = ["TXN-aaaaaaaa", "TXN-aaaaaaaa"] ∧
    decide (uuidsDup.getD 0 "" = uuidsDup.getD 1 "") = false := by
  exact ⟨rfl, by decide⟩

/-- A concrete one-transaction run used to witness the amended C6. -/
def gtsEx : Except PyError
    ((List Transaction × List TransactionItem) × Entropy × NumpyEntropy × Uuids) :=
  generate_transactions [cust1] [prod1] 1 0 [] []
    ["aaaaaaaa-0000-4000-8000-000000000000"]

/-- C6 amended witness: the concrete run `gtsEx` satisfies all hypotheses
and conclusions of the amended claim. -/
theorem claimC6_amended_witness :
    (generate_transactions [cust1] [prod1] 1 0 [] []
        ["aaaaaaaa-0000-4000-8000-000000000000"] =
      .ok ((txnsOf gtsEx, txnsItemsOf gtsEx), txnsRestOf gtsEx)) ∧
    (1 ≤ (["aaaaaaaa-0000-4000-8000-000000000000"] : Uuids).length) ∧
    (∀ u ∈ (["aaaaaaaa-0000-4000-8000-000000000000"] : Uuids),
      (u.take 8).length = 8 ∧ (u.take 8).data.all isHexChar = true) ∧
    (((List.range 1).map (fun i =>
        ((["aaaaaaaa-0000-4000-8000-000000000000"] : Uuids).getD i "").take 8)).Nodup) ∧
    ((txnsOf gtsEx).map (·.transaction_id) =
        (List.range 1).map (fun i => "TXN-" ++
          ((["aaaaaaaa-0000-4000-8000-000000000000"] : Uuids).getD i "").take 8) ∧
      (∀ t ∈ txnsOf gtsEx, ∃ h8 : String, t.transaction_id = "TXN-" ++ h8 ∧
        h8.length = 8 ∧ h8.data.all isHexChar = true) ∧
      ((txnsOf gtsEx).map (·.transaction_id)).Nodup) :=
  ⟨rfl, by decide, by decide, by decide,
    claimC6_amended [cust1] [prod1] 1 0 [] []
      ["aaaaaaaa-0000-4000-8000-000000000000"] (txnsOf gtsEx)
      (txnsItemsOf gtsEx) (txnsRestOf gtsEx) rfl (by decide) (by decide)
      (by decide)⟩

/-! ### Determinism: the seed-independent inputs

The generators are pure functions of the PRNG entropy, the faker state,
the wall clock (`datetime.now()`), the uuid4 stream and numpy's global
RNG (consumed by the un-parameterised `DataFrame.sample` calls).  Only
the first two are fixed by `random.seed(42)` / `Faker.seed(42)`; the
clock, the uuid stream and the numpy draws vary between runs.  The
`scrub*` maps blank exactly the clock-derived fields and the uuid-derived
ids; no scrubbing can hide a divergence in the numpy draws, which picks
different customers and carts, so agreement of the scrubbed tables holds
only when the two runs also share the numpy stream — and fails without
that hypothesis, as `claimC4_counterexample` shows. -/

/-- Blank the clock-derived field of a customer. -/
def scrubCustomer (c : Customer) : Customer := { c with registration_date := 0 }

/-- Blank the clock-derived field of a product. -/
def scrubProduct (p : Product) : Product := { p with created_at := 0 }

/-- Blank the clock-derived field of an inventory record. -/
def scrubInventory (r : InventoryRecord) : InventoryRecord :=
  { r with last_updated := 0 }

/-- Blank the uuid-derived field of a line item. -/
def scrubItem (it : TransactionItem) : TransactionItem :=
  { it with transaction_id := "" }

/-- Blank the uuid- and clock-derived fields of a transaction. -/
def scrubTransaction (t : Transaction) : Transaction :=
  { t with transaction_id := "", transaction_date := 0, created_at := 0 }

/-- Scrub all five tables of a pipeline outcome. -/
def scrubPipeline (r : Except PyError (List Customer × List Product ×
    List InventoryRecord × List Transaction × List TransactionItem)) :
    Except PyError (List Customer × List Product × List InventoryRecord ×
      List Transaction × List TransactionItem) :=
  match r with
  | .error err => .error err
  | .ok (cs, ps, inv, ts, its) =>
      .ok (cs.map scrubCustomer, ps.map scrubProduct, inv.map scrubInventory,
        ts.map scrubTransaction, its.map scrubItem)

theorem mapGetD {α β : Type _} (f : α → β) :
    ∀ (xs : List α) (i : ℕ) (d : α), (xs.map f).getD i (f d) = f (xs.getD i d) := by
  intro xs
  induction xs with
  | nil => intro i d; rfl
  | cons x xs ih =>
      intro i d
      cases i with
      | zero => rfl
      | succ n => exact ih n d

theorem mapEraseIdx {α β : Type _} (f : α → β) :
    ∀ (xs : List α) (i : ℕ), (xs.eraseIdx i).map f = (xs.map f).eraseIdx i := by
  intro xs
  induction xs with
  | nil => intro i; rfl
  | cons x xs ih =>
      intro i
      cases i with
      | zero => rfl
      | succ n => simp only [List.eraseIdx, List.map_cons, ih n]

/-- `sampleAux` commutes with scrubbing: two row lists that agree after
mapping `f` produce `f`-equal samples and identical residual entropy. -/
theorem sampleAux_congr {α β : Type _} [Inhabited α] (f : α → β) :
    ∀ (n : ℕ) (xs ys : List α) (e : NumpyEntropy), xs.map f = ys.map f →
      ((sampleAux n xs e).1).map f = ((sampleAux n ys e).1).map f ∧
      (sampleAux n xs e).2 = (sampleAux n ys e).2 := by
  intro n
  induction n with
  | zero => intro xs ys e h; exact ⟨rfl, rfl⟩
  | succ m ih =>
      intro xs ys e h
      have hlen : xs.length = ys.length := by
        rw [← List.length_map xs f, h, List.length_map]
      rw [sampleAux_succ, sampleAux_succ, hlen]
      have hhead : f (xs.getD (natOf (e.headD 0) % ys.length) default) =
          f (ys.getD (natOf (e.headD 0) % ys.length) default) := by
        rw [← mapGetD f xs, ← mapGetD f ys, h]
      have htail : (xs.eraseIdx (natOf (e.headD 0) % ys.length)).map f =
          (ys.eraseIdx (natOf (e.headD 0) % ys.length)).map f := by
        rw [mapEraseIdx, mapEraseIdx, h]
      obtain ⟨ih1, ih2⟩ := ih _ _ e.tail htail
      refine ⟨?_, ih2⟩
      show List.map f (xs.getD (natOf (e.headD 0) % ys.length) default ::
          (sampleAux m (xs.eraseIdx (natOf (e.headD 0) % ys.length)) e.tail).1) =
        List.map f (ys.getD (natOf (e.headD 0) % ys.length) default ::
          (sampleAux m (ys.eraseIdx (natOf (e.headD 0) % ys.length)) e.tail).1)
      rw [List.map_cons, List.map_cons, hhead, ih1]

/-- Map a scrub over the outcome of a sampling call. -/
def mapSample {α β : Type _} (f : α → β)
    (r : Except PyError (List α × NumpyEntropy)) :
    Except PyError (List β × NumpyEntropy) :=
  match r with
  | .error err => .error err
  | .ok (xs, e) => .ok (xs.map f, e)

theorem pdSample_congr {α β : Type _} [Inhabited α] (f : α → β)
    (xs ys : List α) (n : ℕ) (e : NumpyEntropy) (h : xs.map f = ys.map f) :
    mapSample f (pdSample xs n e) = mapSample f (pdSample ys n e) := by
  have hlen : xs.length = ys.length := by
    rw [← List.length_map xs f, h, List.length_map]
  unfold pdSample
  rw [hlen]
  split
  · rfl
  · obtain ⟨h1, h2⟩ := sampleAux_congr f n xs ys e h
    simp only [mapSample, Except.ok.injEq, Prod.mk.injEq]
    exact ⟨h1, h2⟩

theorem mapHeadD {α β : Type _} (f : α → β) (xs : List α) (d : α) :
    (xs.map f).headD (f d) = f (xs.headD d) := by
  cases xs <;> rfl

/-- A customer row scrubbed of its clock field does not depend on the wall
clock, and neither does the residual faker/PRNG state. -/
theorem generate_single_customer_congr (cid now now' : ℤ) (f : FakerState)
    (e : Entropy) :
    scrubCustomer (generate_single_customer cid now f e).1 =
      scrubCustomer (generate_single_customer cid now' f e).1 ∧
    (generate_single_customer cid now f e).2 =
      (generate_single_customer cid now' f e).2 :=
  ⟨rfl, rfl⟩

theorem generate_customers_loop_cons_fst (now cid : ℤ) (rest : List ℤ)
    (f : FakerState) (e : Entropy) :
    (generate_customers_loop now (cid :: rest) f e).1 =
      (generate_single_customer cid now f e).1 ::
        (generate_customers_loop now rest
          (generate_single_customer cid now f e).2.1
          (generate_single_customer cid now f e).2.2).1 := rfl

theorem generate_customers_loop_cons_snd (now cid : ℤ) (rest : List ℤ)
    (f : FakerState) (e : Entropy) :
    (generate_customers_loop now (cid :: rest) f e).2 =
      (generate_customers_loop now rest
        (generate_single_customer cid now f e).2.1
        (generate_single_customer cid now f e).2.2).2 := rfl

theorem generate_customers_loop_congr (now now' : ℤ) :
    ∀ (cids : List ℤ) (f : FakerState) (e : Entropy),
      ((generate_customers_loop now cids f e).1).map scrubCustomer =
        ((generate_customers_loop now' cids f e).1).map scrubCustomer ∧
      (generate_customers_loop now cids f e).2 =
        (generate_customers_loop now' cids f e).2 := by
  intro cids
  induction cids with
  | nil => intro f e; exact ⟨rfl, rfl⟩
  | cons cid rest ih =>
      intro f e
      obtain ⟨hc, hfe⟩ := generate_single_customer_congr cid now now' f e
      constructor
      · rw [generate_customers_loop_cons_fst, generate_customers_loop_cons_fst,
          List.map_cons, List.map_cons, hc, hfe]
        rw [(ih _ _).1]
      · rw [generate_customers_loop_cons_snd, generate_customers_loop_cons_snd,
          hfe]
        exact (ih _ _).2

theorem generate_customers_congr (nC : ℕ) (now now' : ℤ) (f : FakerState)
    (e : Entropy) :
    ((generate_customers nC now f e).1).map scrubCustomer =
      ((generate_customers nC now' f e).1).map scrubCustomer ∧
    (generate_customers nC now f e).2 = (generate_customers nC now' f e).2 :=
  generate_customers_loop_congr now now' _ f e

/-- A product row scrubbed of its clock field does not depend on the wall
clock, and neither does the residual faker/PRNG state. -/
theorem generate_single_product_congr (pid now now' : ℤ) (f : FakerState)
    (e : Entropy) :
    scrubProduct (generate_single_product pid now f e).1 =
      scrubProduct (generate_single_product pid now' f e).1 ∧
    (generate_single_product pid now f e).2 =
      (generate_single_product pid now' f e).2 :=
  ⟨rfl, rfl⟩

theorem generate_products_loop_cons_fst (now pid : ℤ) (rest : List ℤ)
    (f : FakerState) (e : Entropy) :
    (generate_products_loop now (pid :: rest) f e).1 =
      (generate_single_product pid now f e).1 ::
        (generate_products_loop now rest
          (generate_single_product pid now f e).2.1
          (generate_single_product pid now f e).2.2).1 := rfl

theorem generate_products_loop_cons_snd (now pid : ℤ) (rest : List ℤ)
    (f : FakerState) (e : Entropy) :
    (generate_products_loop now (pid :: rest) f e).2 =
      (generate_products_loop now rest
        (generate_single_product pid now f e).2.1
        (generate_single_product pid now f e).2.2).2 := rfl

theorem generate_products_loop_congr (now now' : ℤ) :
    ∀ (pids : List ℤ) (f : FakerState) (e : Entropy),
      ((generate_products_loop now pids f e).1).map scrubProduct =
        ((generate_products_loop now' pids f e).1).map scrubProduct ∧
      (generate_products_loop now pids f e).2 =
        (generate_products_loop now' pids f e).2 := by
  intro pids
  induction pids with
  | nil => intro f e; exact ⟨rfl, rfl⟩
  | cons pid rest ih =>
      intro f e
      obtain ⟨hp, hfe⟩ := generate_single_product_congr pid now now' f e
      constructor
      · rw [generate_products_loop_cons_fst, generate_products_loop_cons_fst,
          List.map_cons, List.map_cons, hp, hfe]
        rw [(ih _ _).1]
      · rw [generate_products_loop_cons_snd, generate_products_loop_cons_snd,
          hfe]
        exact (ih _ _).2

theorem generate_products_congr (nP : ℕ) (now now' : ℤ) (f : FakerState)
    (e : Entropy) :
    ((generate_products nP now f e).1).map scrubProduct =
      ((generate_products nP now' f e).1).map scrubProduct ∧
    (generate_products nP now f e).2 = (generate_products nP now' f e).2 :=
  generate_products_loop_congr now now' _ f e

theorem inventoryLoop_congr (pid now now' : ℤ) :
    ∀ (wids : List ℤ) (e : Entropy),
      ((inventoryLoop pid now wids e).1).map scrubInventory =
        ((inventoryLoop pid now' wids e).1).map scrubInventory ∧
      (inventoryLoop pid now wids e).2 = (inventoryLoop pid now' wids e).2 := by
  intro wids
  induction wids with
  | nil => intro e; exact ⟨rfl, rfl⟩
  | cons w rest ih =>
      intro e
      rw [inventoryLoop_cons, inventoryLoop_cons]
      simp only [List.map_cons]
      refine ⟨?_, (ih _).2⟩
      rw [(ih _).1]
      rfl

theorem generate_inventory_congr :
    ∀ (ps₁ ps₂ : List Product) (now now' : ℤ) (nw : ℕ) (e : Entropy),
      ps₁.map scrubProduct = ps₂.map scrubProduct →
      ((generate_inventory ps₁ now nw e).1).map scrubInventory =
        ((generate_inventory ps₂ now' nw e).1).map scrubInventory ∧
      (generate_inventory ps₁ now nw e).2 =
        (generate_inventory ps₂ now' nw e).2 := by
  intro ps₁
  induction ps₁ with
  | nil =>
      intro ps₂ now now' nw e h
      cases ps₂ with
      | nil => exact ⟨rfl, rfl⟩
      | cons p r => simp at h
  | cons p₁ r₁ ih =>
      intro ps₂ now now' nw e h
      cases ps₂ with
      | nil => simp at h
      | cons p₂ r₂ =>
          rw [List.map_cons, List.map_cons, List.cons.injEq] at h
          have hpid : p₁.product_id = p₂.product_id := by
            have := congrArg Product.product_id h.1
            exact this
          show ((generate_inventory (p₁ :: r₁) now nw e).1).map scrubInventory =
              ((generate_inventory (p₂ :: r₂) now' nw e).1).map scrubInventory ∧ _
          rw [show generate_inventory (p₁ :: r₁) now nw e =
            ((generate_inventory_for_product p₁.product_id now nw e).1 ++
              (generate_inventory r₁ now nw
                (generate_inventory_for_product p₁.product_id now nw e).2).1,
             (generate_inventory r₁ now nw
                (generate_inventory_for_product p₁.product_id now nw e).2).2) from rfl]
          rw [show generate_inventory (p₂ :: r₂) now' nw e =
            ((generate_inventory_for_product p₂.product_id now' nw e).1 ++
              (generate_inventory r₂ now' nw
                (generate_inventory_for_product p₂.product_id now' nw e).2).1,
             (generate_inventory r₂ now' nw
                (generate_inventory_for_product p₂.product_id now' nw e).2).2) from rfl]
          obtain ⟨hl1, hl2⟩ := inventoryLoop_congr p₁.product_id now now'
            ((List.range' 1 nw).map fun w => Int.ofNat w) e
          rw [show generate_inventory_for_product p₁.product_id now nw e =
            inventoryLoop p₁.product_id now
              ((List.range' 1 nw).map fun w => Int.ofNat w) e from rfl]
          rw [show generate_inventory_for_product p₂.product_id now' nw e =
            inventoryLoop p₂.product_id now'
              ((List.range' 1 nw).map fun w => Int.ofNat w) e from rfl]
          rw [← hpid]
          obtain ⟨ih1, ih2⟩ := ih r₂ now now' nw
            (inventoryLoop p₁.product_id now'
              ((List.range' 1 nw).map fun w => Int.ofNat w) e).2 h.2
          constructor
          · rw [List.map_append, List.map_append, hl1, hl2, ih1]
          · rw [hl2, ih2]

/-- Scrub the outcome of a customer selection. -/
def mapSelect (r : Except PyError (Customer × NumpyEntropy)) :
    Except PyError (Customer × NumpyEntropy) :=
  match r with
  | .error err => .error err
  | .ok (c, np) => .ok (scrubCustomer c, np)

theorem select_random_customer_congr (cs₁ cs₂ : List Customer)
    (np : NumpyEntropy)
    (h : cs₁.map scrubCustomer = cs₂.map scrubCustomer) :
    mapSelect (select_random_customer cs₁ none np) =
      mapSelect (select_random_customer cs₂ none np) := by
  have hpd := pdSample_congr scrubCustomer cs₁ cs₂ 1 np h
  unfold select_random_customer
  rcases h₁ : pdSample cs₁ 1 np with err₁ | ⟨xs₁, np₁⟩ <;>
    rcases h₂ : pdSample cs₂ 1 np with err₂ | ⟨xs₂, np₂⟩ <;>
    rw [h₁, h₂] at hpd
  · simp only [mapSample, Except.error.injEq] at hpd
    show (Except.error err₁ : Except PyError (Customer × NumpyEntropy)) =
      .error err₂
    rw [hpd]
  · exact absurd hpd (by simp [mapSample])
  · exact absurd hpd (by simp [mapSample])
  · simp only [mapSample, Except.ok.injEq, Prod.mk.injEq] at hpd
    obtain ⟨hxs, hnp⟩ := hpd
    subst hnp
    show Except.ok (scrubCustomer (xs₁.headD default), np₁) =
      Except.ok (scrubCustomer (xs₂.headD default), np₁)
    rw [Except.ok.injEq, Prod.mk.injEq]
    refine ⟨?_, rfl⟩
    rw [← mapHeadD scrubCustomer xs₁ default,
      ← mapHeadD scrubCustomer xs₂ default, hxs]

/-- Scrub the outcome of a cart selection. -/
def mapCart (r : Except PyError (List Product × Entropy × NumpyEntropy)) :
    Except PyError (List Product × Entropy × NumpyEntropy) :=
  match r with
  | .error err => .error err
  | .ok (cart, s) => .ok (cart.map scrubProduct, s)

theorem select_shopping_cart_eq (ps : List Product) (mn mx : ℤ) (e : Entropy)
    (np : NumpyEntropy) :
    select_shopping_cart ps mn mx e np =
      (match pdSample ps (pyRandint mn mx e).1.toNat np with
        | .error err => .error err
        | .ok (cart, np1) => .ok (cart, (pyRandint mn mx e).2, np1)) := rfl

theorem select_shopping_cart_congr (ps₁ ps₂ : List Product) (mn mx : ℤ)
    (e : Entropy) (np : NumpyEntropy)
    (h : ps₁.map scrubProduct = ps₂.map scrubProduct) :
    mapCart (select_shopping_cart ps₁ mn mx e np) =
      mapCart (select_shopping_cart ps₂ mn mx e np) := by
  have hpd := pdSample_congr scrubProduct ps₁ ps₂
    (pyRandint mn mx e).1.toNat np h
  rw [select_shopping_cart_eq, select_shopping_cart_eq]
  rcases h₁ : pdSample ps₁ (pyRandint mn mx e).1.toNat np
    with err₁ | ⟨c₁, np₁⟩ <;>
    rcases h₂ : pdSample ps₂ (pyRandint mn mx e).1.toNat np
      with err₂ | ⟨c₂, np₂⟩ <;>
    rw [h₁, h₂] at hpd
  · simp only [mapSample, Except.error.injEq] at hpd
    show (Except.error err₁ :
        Except PyError (List Product × Entropy × NumpyEntropy)) = .error err₂
    rw [hpd]
  · exact absurd hpd (by simp [mapSample])
  · exact absurd hpd (by simp [mapSample])
  · simp only [mapSample, Except.ok.injEq, Prod.mk.injEq] at hpd
    obtain ⟨hmap, hnp⟩ := hpd
    subst hnp
    show Except.ok (c₁.map scrubProduct, (pyRandint mn mx e).2, np₁) =
      Except.ok (c₂.map scrubProduct, (pyRandint mn mx e).2, np₁)
    rw [hmap]

/-- Scrubbed line items do not depend on the transaction id baked into
them, and only on the scrubbed cart. -/
theorem gti_congr (tid₁ tid₂ : String) :
    ∀ (c₁ c₂ : List Product) (e : Entropy),
      c₁.map scrubProduct = c₂.map scrubProduct →
      ((generate_transaction_items tid₁ c₁ e).1).map scrubItem =
        ((generate_transaction_items tid₂ c₂ e).1).map scrubItem ∧
      (generate_transaction_items tid₁ c₁ e).2 =
        (generate_transaction_items tid₂ c₂ e).2 := by
  intro c₁
  induction c₁ with
  | nil =>
      intro c₂ e h
      cases c₂ with
      | nil => exact ⟨rfl, rfl⟩
      | cons p r => simp at h
  | cons p₁ r₁ ih =>
      intro c₂ e h
      cases c₂ with
      | nil => simp at h
      | cons p₂ r₂ =>
          rw [List.map_cons, List.map_cons, List.cons.injEq] at h
          have hprice : p₁.price = p₂.price := by
            have := congrArg Product.price h.1
            exact this
          have hpid : p₁.product_id = p₂.product_id := by
            have := congrArg Product.product_id h.1
            exact this
          have hname : p₁.product_name = p₂.product_name := by
            have := congrArg Product.product_name h.1
            exact this
          have hcat : p₁.category = p₂.category := by
            have := congrArg Product.category h.1
            exact this
          rw [generate_transaction_items_cons, generate_transaction_items_cons]
          simp only [List.map_cons]
          obtain ⟨ih1, ih2⟩ := ih r₂ (pyChoice [(0 : ℚ), 0, 0, 5, 10, 15, 20]
            (pyRandint 1 5 e).2).2 h.2
          constructor
          · rw [ih1, hprice, hpid, hname, hcat]
            rfl
          · exact ih2

theorem totals_congr (its₁ its₂ : List TransactionItem)
    (h : its₁.map scrubItem = its₂.map scrubItem) :
    calculate_transaction_totals its₁ = calculate_transaction_totals its₂ := by
  have hproj : ∀ (g : TransactionItem → ℚ),
      (∀ it, g (scrubItem it) = g it) →
      its₁.map g = its₂.map g := by
    intro g hg
    have h1 : ∀ its : List TransactionItem,
        its.map g = (its.map scrubItem).map g := by
      intro its
      rw [List.map_map]
      apply List.map_congr_left
      intro a _
      exact (hg a).symm
    rw [h1 its₁, h1 its₂, h]
  have hsub := hproj (fun it => it.subtotal) (fun it => rfl)
  have hdisc := hproj (fun it => it.discount_amount) (fun it => rfl)
  have hlen : its₁.length = its₂.length := by
    have := congrArg List.length h
    rwa [List.length_map, List.length_map] at this
  simp only [calculate_transaction_totals]
  rw [hsub, hdisc, hlen]

/-- Scrub the outcome of a single transaction, dropping the residual uuid
stream (each run owns its own). -/
def mapGst (r : Except PyError ((Transaction × List TransactionItem) ×
    Entropy × NumpyEntropy × Uuids)) :
    Except PyError ((Transaction × List TransactionItem) ×
      Entropy × NumpyEntropy) :=
  match r with
  | .error err => .error err
  | .ok ((t, its), e, np, _) =>
      .ok ((scrubTransaction t, its.map scrubItem), e, np)

/-- One transaction, scrubbed of uuid- and clock-derived fields, is a
function of the scrubbed tables, the PRNG entropy and the numpy draws
alone: the wall clock and the uuid stream do not influence it. -/
theorem gst_congr (cs₁ cs₂ : List Customer) (ps₁ ps₂ : List Product)
    (now now' : ℤ) (e : Entropy) (np : NumpyEntropy) (us₁ us₂ : Uuids)
    (hc : cs₁.map scrubCustomer = cs₂.map scrubCustomer)
    (hp : ps₁.map scrubProduct = ps₂.map scrubProduct) :
    mapGst (generate_single_transaction cs₁ ps₁ now none e np us₁) =
      mapGst (generate_single_transaction cs₂ ps₂ now' none e np us₂) := by
  have hsel := select_random_customer_congr cs₁ cs₂ np hc
  unfold generate_single_transaction
  rcases h₁ : select_random_customer cs₁ none np with err₁ | ⟨c₁, np₁⟩ <;>
    rcases h₂ : select_random_customer cs₂ none np with err₂ | ⟨c₂, np₂⟩ <;>
    rw [h₁, h₂] at hsel
  · simp only [mapSelect, Except.error.injEq] at hsel
    rw [hsel]
  · exact absurd hsel (by simp [mapSelect])
  · exact absurd hsel (by simp [mapSelect])
  · simp only [mapSelect, Except.ok.injEq, Prod.mk.injEq] at hsel
    obtain ⟨hcust, hnp⟩ := hsel
    subst hnp
    dsimp only
    have hcart := select_shopping_cart_congr ps₁ ps₂ 1 10 e np₁ hp
    rcases g₁ : select_shopping_cart ps₁ 1 10 e np₁
      with cerr₁ | ⟨cart₁, ce₁, cnp₁⟩ <;>
      rcases g₂ : select_shopping_cart ps₂ 1 10 e np₁
        with cerr₂ | ⟨cart₂, ce₂, cnp₂⟩ <;>
      rw [g₁, g₂] at hcart
    · simp only [mapCart, Except.error.injEq] at hcart
      rw [hcart]
    · exact absurd hcart (by simp [mapCart])
    · exact absurd hcart (by simp [mapCart])
    · simp only [mapCart, Except.ok.injEq, Prod.mk.injEq] at hcart
      obtain ⟨hcmap, hce, hcnp⟩ := hcart
      subst hce
      subst hcnp
      obtain ⟨hits, hite⟩ := gti_congr ("TXN-" ++ (us₁.headD "").take 8)
        ("TXN-" ++ (us₂.headD "").take 8) cart₁ cart₂ ce₁ hcmap
      have htot := totals_congr _ _ hits
      have hcid : c₁.customer_id = c₂.customer_id := by
        have := congrArg Customer.customer_id hcust
        exact this
      have hemail : c₁.email = c₂.email := by
        have := congrArg Customer.email hcust
        exact this
      have haddr : c₁.address = c₂.address := by
        have := congrArg Customer.address hcust
        exact this
      have hcity : c₁.city = c₂.city := by
        have := congrArg Customer.city hcust
        exact this
      have hstate : c₁.state = c₂.state := by
        have := congrArg Customer.state hcust
        exact this
      have hzip : c₁.zip_code = c₂.zip_code := by
        have := congrArg Customer.zip_code hcust
        exact this
      simp only [mapGst, generate_transaction_id]
      rw [hits, hite, htot, hcid, hemail, haddr, hcity, hstate, hzip]
      simp only [scrubTransaction]

/-- Scrub the outcome of a whole transactions run, dropping the residual
uuid stream. -/
def mapGts (r : Except PyError
    ((List Transaction × List TransactionItem) ×
      Entropy × NumpyEntropy × Uuids)) :
    Except PyError ((List Transaction × List TransactionItem) ×
      Entropy × NumpyEntropy) :=
  match r with
  | .error err => .error err
  | .ok ((ts, its), e, np, _) =>
      .ok ((ts.map scrubTransaction, its.map scrubItem), e, np)

/-- The scrubbed transactions and line-items tables are functions of the
scrubbed customer/product tables, the PRNG entropy and the numpy draws
alone. -/
theorem generate_transactions_loop_congr (cs₁ cs₂ : List Customer)
    (ps₁ ps₂ : List Product) (now now' : ℤ)
    (hc : cs₁.map scrubCustomer = cs₂.map scrubCustomer)
    (hp : ps₁.map scrubProduct = ps₂.map scrubProduct) :
    ∀ (n : ℕ) (e : Entropy) (np : NumpyEntropy) (us₁ us₂ : Uuids),
      mapGts (generate_transactions_loop cs₁ ps₁ now n e np us₁) =
        mapGts (generate_transactions_loop cs₂ ps₂ now' n e np us₂) := by
  intro n
  induction n with
  | zero => intro e np us₁ us₂; rfl
  | succ m ih =>
      intro e np us₁ us₂
      have hgst := gst_congr cs₁ cs₂ ps₁ ps₂ now now' e np us₁ us₂ hc hp
      rw [show generate_transactions_loop cs₁ ps₁ now (m + 1) e np us₁ =
        (match generate_single_transaction cs₁ ps₁ now none e np us₁ with
          | .error err => .error err
          | .ok ((t, items), e1, np1, us1) =>
            match generate_transactions_loop cs₁ ps₁ now m e1 np1 us1 with
            | .error err => .error err
            | .ok ((ts0, its0), rest0) =>
              .ok ((t :: ts0, items ++ its0), rest0)) from rfl]
      rw [show generate_transactions_loop cs₂ ps₂ now' (m + 1) e np us₂ =
        (match generate_single_transaction cs₂ ps₂ now' none e np us₂ with
          | .error err => .error err
          | .ok ((t, items), e1, np1, us1) =>
            match generate_transactions_loop cs₂ ps₂ now' m e1 np1 us1 with
            | .error err => .error err
            | .ok ((ts0, its0), rest0) =>
              .ok ((t :: ts0, items ++ its0), rest0)) from rfl]
      rcases G₁ : generate_single_transaction cs₁ ps₁ now none e np us₁
        with err₁ | ⟨⟨t₁, items₁⟩, e₁, np₁, usr₁⟩ <;>
        rcases G₂ : generate_single_transaction cs₂ ps₂ now' none e np us₂
          with err₂ | ⟨⟨t₂, items₂⟩, e₂, np₂, usr₂⟩ <;>
        rw [G₁, G₂] at hgst
      · simp only [mapGst, Except.error.injEq] at hgst
        rw [hgst]
      · exact absurd hgst (by simp [mapGst])
      · exact absurd hgst (by simp [mapGst])
      · simp only [mapGst, Except.ok.injEq, Prod.mk.injEq] at hgst
        obtain ⟨⟨htxn, hitems⟩, he, hnp⟩ := hgst
        subst he
        subst hnp
        dsimp only
        have hih := ih e₁ np₁ usr₁ usr₂
        rcases R₁ : generate_transactions_loop cs₁ ps₁ now m e₁ np₁ usr₁
          with lerr₁ | ⟨⟨ts₁, tits₁⟩, le₁, lnp₁, lusr₁⟩ <;>
          rcases R₂ : generate_transactions_loop cs₂ ps₂ now' m e₁ np₁ usr₂
            with lerr₂ | ⟨⟨ts₂, tits₂⟩, le₂, lnp₂, lusr₂⟩ <;>
          rw [R₁, R₂] at hih
        · simp only [mapGts, Except.error.injEq] at hih
          rw [hih]
        · exact absurd hih (by simp [mapGts])
        · exact absurd hih (by simp [mapGts])
        · simp only [mapGts, Except.ok.injEq, Prod.mk.injEq] at hih
          obtain ⟨⟨hts, htits⟩, hle, hlnp⟩ := hih
          subst hle
          subst hlnp
          simp only [mapGts, Except.ok.injEq, Prod.mk.injEq, List.map_cons,
            List.map_append]
          exact ⟨⟨by rw [htxn, hts], by rw [hitems, htits]⟩, trivial⟩

theorem run_pipeline_eq (nC nP nW nT : ℕ) (now : ℤ) (f : FakerState)
    (e : Entropy) (np : NumpyEntropy) (us : Uuids) :
    run_pipeline nC nP nW nT now f e np us =
      (match generate_transactions (generate_customers nC now f e).1
          (generate_products nP now (generate_customers nC now f e).2.1
            (generate_customers nC now f e).2.2).1 nT now
          (generate_inventory
            (generate_products nP now (generate_customers nC now f e).2.1
              (generate_customers nC now f e).2.2).1 now nW
            (generate_products nP now (generate_customers nC now f e).2.1
              (generate_customers nC now f e).2.2).2.2).2 np us with
        | .error err => .error err
        | .ok ((ts, its), _) =>
            .ok ((generate_customers nC now f e).1,
              (generate_products nP now (generate_customers nC now f e).2.1
                (generate_customers nC now f e).2.2).1,
              (generate_inventory
                (generate_products nP now (generate_customers nC now f e).2.1
                  (generate_customers nC now f e).2.2).1 now nW
                (generate_products nP now (generate_customers nC now f e).2.1
                  (generate_customers nC now f e).2.2).2.2).1,
              ts, its)) := rfl

/-- C4 amended: with the same seed (PRNG entropy and faker state), the
same counts AND the same numpy global-RNG draws (which the seed does not
control), two pipeline runs agree on all five tables once the
clock-derived fields (`registration_date`, `created_at`, `last_updated`,
`transaction_date`) and the uuid4-derived `transaction_id`s are scrubbed —
whatever the wall-clock times and uuid draws of the two runs were. -/
theorem claimC4_amended (nC nP nW nT : ℕ) (now now' : ℤ) (f : FakerState)
    (e : Entropy) (np : NumpyEntropy) (us us' : Uuids) :
    scrubPipeline (run_pipeline nC nP nW nT now f e np us) =
      scrubPipeline (run_pipeline nC nP nW nT now' f e np us') := by
  rw [run_pipeline_eq, run_pipeline_eq]
  obtain ⟨hcs, hfe⟩ := generate_customers_congr nC now now' f e
  rw [hfe]
  obtain ⟨hps, hpe⟩ := generate_products_congr nP now now'
    (generate_customers nC now' f e).2.1 (generate_customers nC now' f e).2.2
  rw [hpe]
  obtain ⟨hinv, hie⟩ := generate_inventory_congr
    (generate_products nP now (generate_customers nC now' f e).2.1
      (generate_customers nC now' f e).2.2).1
    (generate_products nP now' (generate_customers nC now' f e).2.1
      (generate_customers nC now' f e).2.2).1 now now' nW
    (generate_products nP now' (generate_customers nC now' f e).2.1
      (generate_customers nC now' f e).2.2).2.2 hps
  rw [hie]
  have hT : mapGts (generate_transactions (generate_customers nC now f e).1
        (generate_products nP now (generate_customers nC now' f e).2.1
          (generate_customers nC now' f e).2.2).1 nT now
        (generate_inventory
          (generate_products nP now' (generate_customers nC now' f e).2.1
            (generate_customers nC now' f e).2.2).1 now' nW
          (generate_products nP now' (generate_customers nC now' f e).2.1
            (generate_customers nC now' f e).2.2).2.2).2 np us) =
      mapGts (generate_transactions (generate_customers nC now' f e).1
        (generate_products nP now' (generate_customers nC now' f e).2.1
          (generate_customers nC now' f e).2.2).1 nT now'
        (generate_inventory
          (generate_products nP now' (generate_customers nC now' f e).2.1
            (generate_customers nC now' f e).2.2).1 now' nW
          (generate_products nP now' (generate_customers nC now' f e).2.1
            (generate_customers nC now' f e).2.2).2.2).2 np us') :=
    generate_transactions_loop_congr _ _ _ _ now now' hcs hps nT _ np us us'
  rcases T₁ : generate_transactions (generate_customers nC now f e).1
      (generate_products nP now (generate_customers nC now' f e).2.1
        (generate_customers nC now' f e).2.2).1 nT now
      (generate_inventory
        (generate_products nP now' (generate_customers nC now' f e).2.1
          (generate_customers nC now' f e).2.2).1 now' nW
        (generate_products nP now' (generate_customers nC now' f e).2.1
          (generate_customers nC now' f e).2.2).2.2).2 np us
    with terr₁ | ⟨⟨ts₁, tits₁⟩, te₁, tnp₁, tus₁⟩ <;>
    rcases T₂ : generate_transactions (generate_customers nC now' f e).1
      (generate_products nP now' (generate_customers nC now' f e).2.1
        (generate_customers nC now' f e).2.2).1 nT now'
      (generate_inventory
        (generate_products nP now' (generate_customers nC now' f e).2.1
          (generate_customers nC now' f e).2.2).1 now' nW
        (generate_products nP now' (generate_customers nC now' f e).2.1
          (generate_customers nC now' f e).2.2).2.2).2 np us'
      with terr₂ | ⟨⟨ts₂, tits₂⟩, te₂, tnp₂, tus₂⟩ <;>
    rw [T₁, T₂] at hT
  · simp only [mapGts, Except.error.injEq] at hT
    rw [hT]
  · exact absurd hT (by simp [mapGts])
  · exact absurd hT (by simp [mapGts])
  · simp only [mapGts, Except.ok.injEq, Prod.mk.injEq] at hT
    obtain ⟨⟨hmts, hmits⟩, -⟩ := hT
    simp only [scrubPipeline, Except.ok.injEq, Prod.mk.injEq]
    exact ⟨hcs, hps, hinv, hmts, hmits⟩

/-- The `last_updated` column of the inventory table of a pipeline
outcome. -/
def pipelineInvTimes (r : Except PyError (List Customer × List Product ×
    List InventoryRecord × List Transaction × List TransactionItem)) :
    List ℤ :=
  match r with
  | .ok (_, _, inv, _, _) => inv.map (·.last_updated)
  | .error _ => []

/-- The `customer_id` column of the transactions table of a pipeline
outcome. -/
def pipelineTxnCustomers (r : Except PyError (List Customer × List Product ×
    List InventoryRecord × List Transaction × List TransactionItem)) :
    List ℤ :=
  match r with
  | .ok (_, _, _, ts, _) => ts.map (·.customer_id)
  | .error _ => []

/-- C4 counterexample: two pipeline runs with the SAME seed (entropy,
faker state) and counts but different wall-clock times produce different
inventory tables — the outputs are not byte-identical; and two same-seed
runs whose numpy global-RNG draws differ sample different customers, so
even the transaction CONTENT (here the `customer_id` column) diverges. -/
theorem claimC4_counterexample :
    pipelineInvTimes (run_pipeline 0 1 1 0 0 ⟨[], []⟩ [] [] []) = [0] ∧
    pipelineInvTimes (run_pipeline 0 1 1 0 86400 ⟨[], []⟩ [] [] []) = [86400] ∧
    decide (pipelineInvTimes (run_pipeline 0 1 1 0 0 ⟨[], []⟩ [] [] []) =
      pipelineInvTimes (run_pipeline 0 1 1 0 86400 ⟨[], []⟩ [] [] [])) =
        false ∧
    pipelineTxnCustomers (run_pipeline 2 1 1 1 0 ⟨[], []⟩ [] [] []) = [1] ∧
    pipelineTxnCustomers (run_pipeline 2 1 1 1 0 ⟨[], []⟩ [] [1] []) = [2] ∧
    decide (pipelineTxnCustomers (run_pipeline 2 1 1 1 0 ⟨[], []⟩ [] [] []) =
      pipelineTxnCustomers (run_pipeline 2 1 1 1 0 ⟨[], []⟩ [] [1] [])) =
        false :=
  ⟨rfl, rfl, by decide, rfl, rfl, by decide⟩

end ECom
